import Mathlib

/-!
hello-triangle (tin-engine): device and pipeline lifecycle, frame loop, teardown.

A shallow embedding of `src/tin-engine.cpp` and `src/include/tinengine.h`.

The program is a sequence of calls into Direct3D 11 and the Win32 message
queue.  The embedding keeps

* the eight global interface pointers and the automatic pointer variables of
  `InitD3D`, `InitPipeline`, `InitGraphics` and `WinMain`,
* the native side as a resource-tracking layer: the references the program
  holds (`live`), the order in which they were handed out (`acquired`) and
  the calls issued so far (`trace`),
* a sticky `fault`: a call through a pointer that holds no object ends the
  run (the "exception is thrown here" of the comments in `CleanD3D`); every
  later statement leaves the state alone. A call through a pointer whose
  object was already released is undefined in the source: the state names
  the pointer variables through which such a call goes on regardless
  (`tolerated`); through the others it ends the run.

Every statement of the source is one state transformer `World → World`;
a function body is the list of its statements, run in order by `seq`.
Which native calls succeed is a parameter (`Native`), and so is what each
`PeekMessage` of the main loop finds (a list of `Option MSG`). `WindowProc`
runs inside `DispatchMessage` and issues no Direct3D call; the window set-up
of `WinMain` before `InitD3D` only produces `hWnd`. Neither is modelled.
-/

namespace TinEngine

/-! ## Constants and plain data -/

/-- Source: `#define SCREEN_WIDTH 1366`. -/
def SCREEN_WIDTH : Nat := 1366

/-- Source: `#define SCREEN_HEIGHT 768`. -/
def SCREEN_HEIGHT : Nat := 768

/-- Window message code of `WM_QUIT` (winuser.h). -/
def WM_QUIT : Nat := 0x0012

/-- Flag `PM_REMOVE` of `PeekMessage` (winuser.h). -/
def PM_REMOVE : Nat := 0x0001

/-- Value of `D3D11_APPEND_ALIGNED_ELEMENT` (d3d11.h). -/
def D3D11_APPEND_ALIGNED_ELEMENT : Nat := 0xffffffff

/-- Value of `D3D11_PRIMITIVE_TOPOLOGY_TRIANGLELIST` (d3dcommon.h). -/
def D3D11_PRIMITIVE_TOPOLOGY_TRIANGLELIST : Nat := 4

/-- Value of `DXGI_USAGE_RENDER_TARGET_OUTPUT` (dxgi.h). -/
def DXGI_USAGE_RENDER_TARGET_OUTPUT : Nat := 0x20

/-- Value of `DXGI_SWAP_CHAIN_FLAG_ALLOW_MODE_SWITCH` (dxgi.h). -/
def DXGI_SWAP_CHAIN_FLAG_ALLOW_MODE_SWITCH : Nat := 2

/-- Value of `D3D_DRIVER_TYPE_HARDWARE` (d3dcommon.h). -/
def D3D_DRIVER_TYPE_HARDWARE : Nat := 1

/-- Value of `D3D11_SDK_VERSION` (d3d11.h). -/
def D3D11_SDK_VERSION : Nat := 7

/-- Value of `D3D11_USAGE_DYNAMIC` (d3d11.h). -/
def D3D11_USAGE_DYNAMIC : Nat := 2

/-- Value of `D3D10_BIND_VERTEX_BUFFER` (d3d10.h). -/
def D3D10_BIND_VERTEX_BUFFER : Nat := 1

/-- Value of `D3D11_CPU_ACCESS_WRITE` (d3d11.h). -/
def D3D11_CPU_ACCESS_WRITE : Nat := 0x10000

/-- Value of `D3D11_MAP_WRITE_DISCARD` (d3d11.h). -/
def D3D11_MAP_WRITE_DISCARD : Nat := 4

/-- Value of `D3D11_INPUT_PER_VERTEX_DATA` (d3d11.h). -/
def D3D11_INPUT_PER_VERTEX_DATA : Nat := 0

/-- The DXGI formats the program names, and the all-zero one left by `ZeroMemory`. -/
inductive DXGI_FORMAT
  | UNKNOWN
  | R32G32B32A32_FLOAT
  | R32G32B32_FLOAT
  | R8G8B8A8_UNORM
  deriving DecidableEq, Repr

/-- Bytes one element of a format occupies (bits per element / 8). -/
def DXGI_FORMAT.bytes : DXGI_FORMAT → Nat
  | .UNKNOWN => 0
  | .R32G32B32A32_FLOAT => 16
  | .R32G32B32_FLOAT => 12
  | .R8G8B8A8_UNORM => 4

/-- A decimal floating literal as it is written in the source: `mant * 10 ^ exp`.
Rounding to binary32 is not modelled; no claim depends on it. -/
structure Dec where
  mant : Int
  exp : Int
  deriving DecidableEq, Repr

/-- Unary minus on a literal. -/
def Dec.neg (d : Dec) : Dec := { d with mant := - d.mant }

/-- Source: `struct Color { float r, g, b, a; ... }`. -/
structure Color where
  r : Dec
  g : Dec
  b : Dec
  a : Dec
  deriving DecidableEq, Repr

/-- Source: `struct Vertex { float x, y, z; Color color; ... }`. -/
structure Vertex where
  x : Dec
  y : Dec
  z : Dec
  color : Color
  deriving DecidableEq, Repr

/-! ## Object layout of `Color` and `Vertex` -/

/-- A non-static data member, by size and alignment in bytes. -/
structure Member where
  size : Nat
  align : Nat
  deriving DecidableEq, Repr

/-- Smallest multiple of `a` that is at least `n`. -/
def alignUp (n a : Nat) : Nat := (n + a - 1) / a * a

/-- Byte offsets of the members of a standard-layout struct, in declaration
order, the first free byte being `pos`: each member goes to the next offset
that satisfies its alignment. -/
def memberOffsets : List Member → Nat → List Nat
  | [], _ => []
  | m :: ms, pos => alignUp pos m.align :: memberOffsets ms (alignUp pos m.align + m.size)

/-- First byte after the last member. -/
def membersEnd : List Member → Nat → Nat
  | [], pos => pos
  | m :: ms, pos => membersEnd ms (alignUp pos m.align + m.size)

/-- Alignment of a struct: the strictest alignment among its members. -/
def structAlign (ms : List Member) : Nat := ms.foldl (fun a m => max a m.align) 1

/-- Size of a struct (`sizeof`): the end of the last member, padded to the struct alignment. -/
def structSize (ms : List Member) : Nat := alignUp (membersEnd ms 0) (structAlign ms)

/-- A `float` member: 32 bits, 4-byte aligned (the ABI of every Direct3D 11 target). -/
def floatMember : Member := ⟨4, 4⟩

/-- Members of `Color`: `float r, g, b, a`. -/
def ColorMembers : List Member := [floatMember, floatMember, floatMember, floatMember]

/-- Members of `Vertex`: `float x, y, z; Color color`. -/
def VertexMembers : List Member :=
  [floatMember, floatMember, floatMember, ⟨structSize ColorMembers, structAlign ColorMembers⟩]

/-- The value of `sizeof(Vertex)`. -/
def sizeofVertex : Nat := structSize VertexMembers

/-- The value of `offsetof(Vertex, x)`: where the position starts. -/
def offsetofPosition : Nat := (memberOffsets VertexMembers 0).getD 0 0

/-- The value of `offsetof(Vertex, color)`. -/
def offsetofColor : Nat := (memberOffsets VertexMembers 0).getD 3 0

/-! ## Descriptions passed to the native API -/

/-- The struct `DXGI_RATIONAL`. -/
structure DXGI_RATIONAL where
  Numerator : Nat := 0
  Denominator : Nat := 0
  deriving DecidableEq, Repr

/-- The struct `DXGI_MODE_DESC`. -/
structure DXGI_MODE_DESC where
  Width : Nat := 0
  Height : Nat := 0
  RefreshRate : DXGI_RATIONAL := {}
  Format : DXGI_FORMAT := .UNKNOWN
  ScanlineOrdering : Nat := 0
  Scaling : Nat := 0
  deriving DecidableEq, Repr

/-- The struct `DXGI_SAMPLE_DESC`. -/
structure DXGI_SAMPLE_DESC where
  Count : Nat := 0
  Quality : Nat := 0
  deriving DecidableEq, Repr

/-- The struct `DXGI_SWAP_CHAIN_DESC`; the defaults are the state after `ZeroMemory`. -/
structure DXGI_SWAP_CHAIN_DESC where
  BufferDesc : DXGI_MODE_DESC := {}
  SampleDesc : DXGI_SAMPLE_DESC := {}
  BufferUsage : Nat := 0
  BufferCount : Nat := 0
  OutputWindow : Nat := 0
  Windowed : Bool := false
  SwapEffect : Nat := 0
  Flags : Nat := 0
  deriving DecidableEq, Repr

/-- The struct `D3D11_VIEWPORT`; the defaults are the state after `ZeroMemory`.
The fields are `FLOAT`s; the program stores only small integers in them. -/
structure D3D11_VIEWPORT where
  TopLeftX : Nat := 0
  TopLeftY : Nat := 0
  Width : Nat := 0
  Height : Nat := 0
  MinDepth : Nat := 0
  MaxDepth : Nat := 0
  deriving DecidableEq, Repr

/-- The struct `D3D11_INPUT_ELEMENT_DESC`. -/
structure D3D11_INPUT_ELEMENT_DESC where
  SemanticName : String
  SemanticIndex : Nat
  Format : DXGI_FORMAT
  InputSlot : Nat
  AlignedByteOffset : Nat
  InputSlotClass : Nat
  InstanceDataStepRate : Nat
  deriving DecidableEq, Repr

/-- The struct `D3D11_BUFFER_DESC`; the defaults are the state after `ZeroMemory`. -/
structure D3D11_BUFFER_DESC where
  ByteWidth : Nat := 0
  Usage : Nat := 0
  BindFlags : Nat := 0
  CPUAccessFlags : Nat := 0
  MiscFlags : Nat := 0
  StructureByteStride : Nat := 0
  deriving DecidableEq, Repr

/-- The struct `MSG`, as far as the program reads it. -/
structure MSG where
  message : Nat
  wParam : Nat
  deriving DecidableEq, Repr

/-- Byte offsets the Direct3D 11 runtime gives the elements of an input
layout, `pos` being the end of the previous element of the slot: an element
declared with `D3D11_APPEND_ALIGNED_ELEMENT` goes right after the previous
one, aligned to 4 bytes; any other element goes where it is declared. -/
def resolveOffsets : List D3D11_INPUT_ELEMENT_DESC → Nat → List Nat
  | [], _ => []
  | e :: es, pos =>
    let off := if e.AlignedByteOffset = D3D11_APPEND_ALIGNED_ELEMENT then alignUp pos 4
               else e.AlignedByteOffset
    off :: resolveOffsets es (off + e.Format.bytes)

/-! ## State of a run -/

/-- An interface pointer: `none` is a pointer that refers to no object (null,
or never set), `some o` refers to the native object `o`. -/
abbrev Handle := Option Nat

/-- The pointer variables of the program: the eight globals, then the
automatic ones of `InitD3D` (`pBackBuffer`), `InitPipeline` (`VS`, `PS`) and
`InitGraphics` (`ms.pData`). -/
inductive Ptr
  | swapchain
  | dev
  | devcon
  | backbuffer
  | pVS
  | pPS
  | pVBuffer
  | pInputLayout
  | pBackBuffer
  | VS
  | PS
  | ms_pData
  deriving DecidableEq, Repr

/-- How a run ends early: a call through a pointer that refers to no object,
or, where that is not tolerated, to an object whose reference was already
released. -/
inductive Fault
  | nullPointer (p : Ptr)
  | released (p : Ptr) (obj : Nat)
  deriving DecidableEq, Repr

/-- The calls the program issues, with the arguments it passes. Interface
pointers that are the receiver of a call appear as the object they refer to,
pointers passed as arguments as the `Handle` they hold. -/
inductive Cmd
  | D3D11CreateDeviceAndSwapChain (driverType sdkVersion : Nat) (scd : DXGI_SWAP_CHAIN_DESC)
  | GetBuffer (swapchain index : Nat)
  | CreateRenderTargetView (dev : Nat) (resource : Handle)
  | Release (obj : Nat)
  | OMSetRenderTargets (devcon numViews : Nat) (view : Handle)
  | RSSetViewports (devcon numViewports : Nat) (viewport : D3D11_VIEWPORT)
  | D3DX11CompileFromFile (file entry profile : String)
  | CreateVertexShader (dev blob : Nat)
  | CreatePixelShader (dev blob : Nat)
  | VSSetShader (devcon : Nat) (shader : Handle)
  | PSSetShader (devcon : Nat) (shader : Handle)
  | CreateInputLayout (dev : Nat) (ied : List D3D11_INPUT_ELEMENT_DESC) (numElements blob : Nat)
  | IASetInputLayout (devcon : Nat) (layout : Handle)
  | CreateBuffer (dev : Nat) (bd : D3D11_BUFFER_DESC)
  | Map (devcon : Nat) (resource : Handle) (mapType : Nat)
  | memcpy (dst : Nat) (src : List Vertex) (bytes : Nat)
  | Unmap (devcon : Nat) (resource : Handle)
  | IASetVertexBuffers (devcon startSlot numBuffers : Nat) (buffer : Handle) (stride offset : Nat)
  | IASetPrimitiveTopology (devcon topology : Nat)
  | Draw (devcon vertexCount startVertex : Nat)
  | Present (swapchain syncInterval flags : Nat)
  | SetFullscreenState (swapchain : Nat) (fullscreen : Bool)
  | PeekMessage (removeMsg : Nat) (found : Option MSG)
  | TranslateMessage (msg : MSG)
  | DispatchMessage (msg : MSG)
  deriving DecidableEq, Repr

/-- The state of a run: the pointer variables, the native objects, the calls
issued. The field `tolerated` is fixed by the environment: the pointer
variables through which a call made after the release of the object still
goes on (the call is then issued on the released object); through any other
pointer such a call ends the run. -/
structure World where
  swapchain : Handle
  dev : Handle
  devcon : Handle
  backbuffer : Handle
  pVS : Handle
  pPS : Handle
  pVBuffer : Handle
  pInputLayout : Handle
  pBackBuffer : Handle
  VS : Handle
  PS : Handle
  ms_pData : Handle
  msg : Option MSG
  live : List Nat
  acquired : List Nat
  next : Nat
  tolerated : List Ptr
  trace : List Cmd
  fault : Option Fault
  deriving DecidableEq, Repr

/-- The state at program start: the globals are zero-initialized, nothing is
acquired, nothing has been called; no call through a released pointer is
tolerated (`startWith` gives the other environments). -/
def start : World :=
  { swapchain := none, dev := none, devcon := none, backbuffer := none,
    pVS := none, pPS := none, pVBuffer := none, pInputLayout := none,
    pBackBuffer := none, VS := none, PS := none, ms_pData := none, msg := none,
    live := [], acquired := [], next := 0, tolerated := [], trace := [], fault := none }

/-- Program start in an environment where a call through each pointer of
`tolerated` still goes on after the object was released. -/
def startWith (tolerated : List Ptr) : World := { start with tolerated := tolerated }

/-- Which of the native calls that can fail succeed in a run. -/
structure Native where
  createDeviceAndSwapChain : Bool
  getBuffer : Bool
  createRenderTargetView : Bool
  compileVS : Bool
  compilePS : Bool
  createVertexShader : Bool
  createPixelShader : Bool
  createInputLayout : Bool
  createBuffer : Bool
  map : Bool
  deriving DecidableEq, Repr

/-- Every native call succeeds. -/
def Native.allSucceed : Native :=
  { createDeviceAndSwapChain := true, getBuffer := true, createRenderTargetView := true,
    compileVS := true, compilePS := true, createVertexShader := true,
    createPixelShader := true, createInputLayout := true, createBuffer := true, map := true }

/-! ## Building blocks of statements -/

/-- Whether a pointer refers to an object the program still holds a reference to. -/
def World.alive (s : World) (h : Handle) : Bool :=
  match h with
  | some o => decide (o ∈ s.live)
  | none => false

/-- Record a call. -/
def emit (c : Cmd) (s : World) : World := { s with trace := s.trace ++ [c] }

/-- The native side hands out a reference to a new object; its identifier is
the value `s.next` had before. -/
def acquire (s : World) : World :=
  { s with live := s.next :: s.live, acquired := s.acquired ++ [s.next], next := s.next + 1 }

/-- Give up one reference to `o`. -/
def drop (o : Nat) (s : World) : World := { s with live := s.live.erase o }

/-- Use the pointer `p`, which holds `h`. A pointer that holds no object ends
the run. A pointer to a live object lets the run go on with that object. A
pointer to a released object does so too when `p` is tolerated, and ends the
run otherwise. -/
def deref (p : Ptr) (h : Handle) (s : World) (k : Nat → World) : World :=
  match h with
  | none => { s with fault := some (.nullPointer p) }
  | some o =>
    if o ∈ s.live ∨ p ∈ s.tolerated then k o else { s with fault := some (.released p o) }

/-- Run statements in order. -/
def seq (stmts : List (World → World)) (s : World) : World :=
  stmts.foldl (fun s stmt => stmt s) s

/-- Read a pointer variable. -/
def World.get (s : World) : Ptr → Handle
  | .swapchain => s.swapchain
  | .dev => s.dev
  | .devcon => s.devcon
  | .backbuffer => s.backbuffer
  | .pVS => s.pVS
  | .pPS => s.pPS
  | .pVBuffer => s.pVBuffer
  | .pInputLayout => s.pInputLayout
  | .pBackBuffer => s.pBackBuffer
  | .VS => s.VS
  | .PS => s.PS
  | .ms_pData => s.ms_pData

/-- Write a pointer variable. -/
def World.set (s : World) (p : Ptr) (h : Handle) : World :=
  match p with
  | .swapchain => { s with swapchain := h }
  | .dev => { s with dev := h }
  | .devcon => { s with devcon := h }
  | .backbuffer => { s with backbuffer := h }
  | .pVS => { s with pVS := h }
  | .pPS => { s with pPS := h }
  | .pVBuffer => { s with pVBuffer := h }
  | .pInputLayout => { s with pInputLayout := h }
  | .pBackBuffer => { s with pBackBuffer := h }
  | .VS => { s with VS := h }
  | .PS => { s with PS := h }
  | .ms_pData => { s with ms_pData := h }

/-- A statement: it runs only while the run has not faulted. -/
def stmt (body : World → World) (s : World) : World :=
  if s.fault.isSome then s else body s

/-- A creating call has returned: on success the out-parameter `out` receives
a reference to a new object, on failure it holds no object. -/
def created (ok : Bool) (out : Ptr) (s : World) : World :=
  if ok then (acquire s).set out (some s.next) else s.set out none

/-- A method call through the pointer `p` that creates nothing: `p->c(...)`. -/
def callVia (p : Ptr) (c : Nat → World → Cmd) : World → World :=
  stmt fun s => deref p (s.get p) s fun o => emit (c o s) s

/-- A creating method call through the pointer `p`: `p->c(..., &out)`. -/
def createVia (p : Ptr) (c : Nat → World → Cmd) (ok : World → Bool) (out : Ptr) :
    World → World :=
  stmt fun s => deref p (s.get p) s fun o => created (ok s) out (emit (c o s) s)

/-- A creating method call of the device that reads a compiled shader blob:
`dev->c(..., blob->GetBufferPointer(), blob->GetBufferSize(), ..., &out)`. The
arguments are evaluated before the call is made, so the blob is used first. -/
def createFromBlob (blobVar : Ptr) (c : Nat → Nat → Cmd) (ok : Bool) (out : Ptr) :
    World → World :=
  stmt fun s => deref blobVar (s.get blobVar) s fun blob =>
    deref .dev s.dev s fun d => created ok out (emit (c d blob) s)

/-- The call `p->Release()`. -/
def Release (p : Ptr) : World → World :=
  stmt fun s => deref p (s.get p) s fun o => drop o (emit (.Release o) s)

/-! ## `InitD3D` -/

/-- The swap-chain description `InitD3D` fills in (lines 37-51). -/
def scd (hWnd : Nat) : DXGI_SWAP_CHAIN_DESC :=
  { BufferCount := 1
    BufferDesc := { Format := .R8G8B8A8_UNORM, Width := SCREEN_WIDTH, Height := SCREEN_HEIGHT }
    BufferUsage := DXGI_USAGE_RENDER_TARGET_OUTPUT
    OutputWindow := hWnd
    SampleDesc := { Count := 4 }
    Windowed := true
    Flags := DXGI_SWAP_CHAIN_FLAG_ALLOW_MODE_SWITCH }

/-- The viewport `InitD3D` fills in (lines 97-103). -/
def viewport : D3D11_VIEWPORT :=
  { TopLeftX := 0, TopLeftY := 0, Width := SCREEN_WIDTH, Height := SCREEN_HEIGHT }

/-- The call `D3D11CreateDeviceAndSwapChain(..., &scd, &swapchain, &dev, NULL, &devcon)`. -/
def D3D11CreateDeviceAndSwapChain (ok : Bool) (desc : DXGI_SWAP_CHAIN_DESC) : World → World :=
  stmt fun s =>
    created ok .devcon (created ok .dev (created ok .swapchain
      (emit (.D3D11CreateDeviceAndSwapChain D3D_DRIVER_TYPE_HARDWARE D3D11_SDK_VERSION desc) s)))

/-- The first part of `InitD3D`, up to the viewport (lines 34-105). -/
def InitD3D_prologue (env : Native) (hWnd : Nat) : List (World → World) :=
  [ D3D11CreateDeviceAndSwapChain env.createDeviceAndSwapChain (scd hWnd),
    createVia .swapchain (fun sc _ => .GetBuffer sc 0) (fun _ => env.getBuffer) .pBackBuffer,
    createVia .dev (fun d s => .CreateRenderTargetView d s.pBackBuffer)
      (fun s => env.createRenderTargetView && s.alive s.pBackBuffer) .backbuffer,
    Release .pBackBuffer,
    callVia .devcon (fun dc s => .OMSetRenderTargets dc 1 s.backbuffer),
    callVia .devcon (fun dc _ => .RSSetViewports dc 1 viewport) ]

/-! ## `InitPipeline` -/

/-- The input element descriptions of `InitPipeline` (lines 172-190). -/
def ied : List D3D11_INPUT_ELEMENT_DESC :=
  [ { SemanticName := "POSITION", SemanticIndex := 0, Format := .R32G32B32_FLOAT,
      InputSlot := 0, AlignedByteOffset := 0,
      InputSlotClass := D3D11_INPUT_PER_VERTEX_DATA, InstanceDataStepRate := 0 },
    { SemanticName := "COLOR", SemanticIndex := 0, Format := .R32G32B32A32_FLOAT,
      InputSlot := 0, AlignedByteOffset := D3D11_APPEND_ALIGNED_ELEMENT,
      InputSlotClass := D3D11_INPUT_PER_VERTEX_DATA, InstanceDataStepRate := 0 } ]

/-- The call `D3DX11CompileFromFile(file, 0, 0, entry, profile, 0, 0, 0, &out, 0, 0)`:
the result code is not looked at and no error-message blob is asked for. -/
def D3DX11CompileFromFile (ok : Bool) (file entry profile : String) (out : Ptr) :
    World → World :=
  stmt fun s => created ok out (emit (.D3DX11CompileFromFile file entry profile) s)

/-- The statements of `InitPipeline` (lines 130-193). -/
def InitPipeline_body (env : Native) : List (World → World) :=
  [ D3DX11CompileFromFile env.compileVS "shaders.shader" "VShader" "vs_4_0" .VS,
    D3DX11CompileFromFile env.compilePS "shaders.shader" "PShader" "ps_4_0" .PS,
    createFromBlob .VS (fun d blob => .CreateVertexShader d blob) env.createVertexShader .pVS,
    createFromBlob .PS (fun d blob => .CreatePixelShader d blob) env.createPixelShader .pPS,
    callVia .devcon (fun dc s => .VSSetShader dc s.pVS),
    callVia .devcon (fun dc s => .PSSetShader dc s.pPS),
    createFromBlob .VS (fun d blob => .CreateInputLayout d ied 2 blob) env.createInputLayout
      .pInputLayout,
    callVia .devcon (fun dc s => .IASetInputLayout dc s.pInputLayout) ]

/-- Source: `void InitPipeline()`. -/
def InitPipeline (env : Native) : World → World := seq (InitPipeline_body env)

/-! ## `InitGraphics` -/

/-- The array `vertices` of `InitGraphics` (lines 200-207), with `x = 0.7f`, `y = 0.4f`. -/
def vertices : List Vertex :=
  let x : Dec := ⟨7, -1⟩
  let y : Dec := ⟨4, -1⟩
  let zero : Dec := ⟨0, 0⟩
  let one : Dec := ⟨1, 0⟩
  [ ⟨zero, x, zero, ⟨one, zero, zero, one⟩⟩,
    ⟨y, y.neg, zero, ⟨zero, one, zero, one⟩⟩,
    ⟨y.neg, y.neg, zero, ⟨zero, zero, one, one⟩⟩ ]

/-- The value of `sizeof(vertices)`. -/
def sizeofVertices : Nat := vertices.length * sizeofVertex

/-- The buffer description `InitGraphics` fills in (lines 211-217). -/
def bd : D3D11_BUFFER_DESC :=
  { Usage := D3D11_USAGE_DYNAMIC
    ByteWidth := sizeofVertices
    BindFlags := D3D10_BIND_VERTEX_BUFFER
    CPUAccessFlags := D3D11_CPU_ACCESS_WRITE }

/-- The call `devcon->Map(pVBuffer, NULL, D3D11_MAP_WRITE_DISCARD, NULL, &ms)`:
on success `ms.pData` addresses the memory of the buffer. -/
def devcon_Map (ok : Bool) : World → World :=
  stmt fun s => deref .devcon s.devcon s fun dc =>
    (emit (.Map dc s.pVBuffer D3D11_MAP_WRITE_DISCARD) s).set .ms_pData
      (if ok && s.alive s.pVBuffer then s.pVBuffer else none)

/-- The statements of `InitGraphics` (lines 199-230). -/
def InitGraphics_body (env : Native) : List (World → World) :=
  [ createVia .dev (fun d _ => .CreateBuffer d bd) (fun _ => env.createBuffer) .pVBuffer,
    devcon_Map env.map,
    callVia .ms_pData (fun dst _ => .memcpy dst vertices sizeofVertices),
    callVia .devcon (fun dc s => .Unmap dc s.pVBuffer) ]

/-- Source: `void InitGraphics()`. -/
def InitGraphics (env : Native) : World → World := seq (InitGraphics_body env)

/-- Source: `void InitD3D(HWND hWnd)`. -/
def InitD3D (env : Native) (hWnd : Nat) : World → World :=
  seq (InitD3D_prologue env hWnd ++ [InitPipeline env, InitGraphics env])

/-! ## `RenderFrame`, `CleanD3D`, `WinMain` -/

/-- The statements of `RenderFrame` (lines 242-266). -/
def RenderFrame_body : List (World → World) :=
  [ callVia .devcon (fun dc s => .IASetVertexBuffers dc 0 1 s.pVBuffer sizeofVertex 0),
    callVia .devcon (fun dc _ => .IASetPrimitiveTopology dc D3D11_PRIMITIVE_TOPOLOGY_TRIANGLELIST),
    callVia .devcon (fun dc _ => .Draw dc 3 0),
    callVia .swapchain (fun sc _ => .Present sc 0 0) ]

/-- Source: `void RenderFrame()`. -/
def RenderFrame : World → World := seq RenderFrame_body

/-- The statements of `CleanD3D` (lines 113-127). -/
def CleanD3D_body : List (World → World) :=
  [ callVia .swapchain (fun sc _ => .SetFullscreenState sc false),
    Release .swapchain,
    Release .backbuffer,
    Release .dev,
    Release .devcon,
    Release .pVS,
    Release .pPS ]

/-- Source: `void CleanD3D()`. -/
def CleanD3D : World → World := seq CleanD3D_body

/-- The call `PeekMessage(&msg, NULL, 0, 0, PM_REMOVE)`, which returns at once:
`found` is the message it takes off the queue, if one was pending. -/
def PeekMessage (found : Option MSG) : World → World :=
  stmt fun s =>
    { emit (.PeekMessage PM_REMOVE found) s with
      msg := match found with
        | some m => some m
        | none => s.msg }

/-- One pass through the body of `while (TRUE)` in `WinMain` (lines 337-352);
the flag tells whether the pass left the loop by `break`. -/
def loopBody (found : Option MSG) (s : World) : Bool × World :=
  match found with
  | some m =>
    let s1 := seq [PeekMessage (some m), stmt (emit (.TranslateMessage m)),
                   stmt (emit (.DispatchMessage m))] s
    if m.message = WM_QUIT then (true, s1) else (false, RenderFrame s1)
  | none => (false, RenderFrame (PeekMessage none s))

/-- The main loop of `WinMain`, run against what the successive `PeekMessage`
calls find. The flag tells whether the loop was left by `break`; when the
list runs out first, the loop is still running and the state is the one
reached so far. A run that has faulted makes no further pass. -/
def mainLoop : List (Option MSG) → World → Bool × World
  | [], s => (false, s)
  | found :: rest, s =>
    if s.fault.isSome then (false, s)
    else match loopBody found s with
      | (true, s1) => (true, s1)
      | (false, s1) => mainLoop rest s1

/-- Source: `WinMain`, from `InitD3D(hWnd)` on (lines 328-357); `hWnd` is the
window `CreateWindowEx` returned. `CleanD3D` runs once the loop was left. -/
def WinMain (env : Native) (hWnd : Nat) (script : List (Option MSG)) : World :=
  match mainLoop script (InitD3D env hWnd start) with
  | (true, s) => CleanD3D s
  | (false, s) => s

/-- The value `WinMain` returns, `return msg.wParam;`: the `WPARAM` converted
to the 32-bit `int` of the return type (the low 32 bits, read as a signed
number). There is none while `msg` was never written. -/
def exitCode (s : World) : Option Int :=
  s.msg.map fun m =>
    let w : Nat := m.wParam % 2 ^ 32
    if w < 2 ^ 31 then (w : Int) else (w : Int) - 2 ^ 32

/-! ## Reading a trace -/

/-- The call a command is, without its arguments. -/
inductive Kind
  | D3D11CreateDeviceAndSwapChain
  | GetBuffer
  | CreateRenderTargetView
  | Release
  | OMSetRenderTargets
  | RSSetViewports
  | D3DX11CompileFromFile
  | CreateVertexShader
  | CreatePixelShader
  | VSSetShader
  | PSSetShader
  | CreateInputLayout
  | IASetInputLayout
  | CreateBuffer
  | Map
  | memcpy
  | Unmap
  | IASetVertexBuffers
  | IASetPrimitiveTopology
  | Draw
  | Present
  | SetFullscreenState
  | PeekMessage
  | TranslateMessage
  | DispatchMessage
  deriving DecidableEq, Repr

/-- The kind of a command. -/
def Cmd.kind : Cmd → Kind
  | .D3D11CreateDeviceAndSwapChain .. => .D3D11CreateDeviceAndSwapChain
  | .GetBuffer .. => .GetBuffer
  | .CreateRenderTargetView .. => .CreateRenderTargetView
  | .Release .. => .Release
  | .OMSetRenderTargets .. => .OMSetRenderTargets
  | .RSSetViewports .. => .RSSetViewports
  | .D3DX11CompileFromFile .. => .D3DX11CompileFromFile
  | .CreateVertexShader .. => .CreateVertexShader
  | .CreatePixelShader .. => .CreatePixelShader
  | .VSSetShader .. => .VSSetShader
  | .PSSetShader .. => .PSSetShader
  | .CreateInputLayout .. => .CreateInputLayout
  | .IASetInputLayout .. => .IASetInputLayout
  | .CreateBuffer .. => .CreateBuffer
  | .Map .. => .Map
  | .memcpy .. => .memcpy
  | .Unmap .. => .Unmap
  | .IASetVertexBuffers .. => .IASetVertexBuffers
  | .IASetPrimitiveTopology .. => .IASetPrimitiveTopology
  | .Draw .. => .Draw
  | .Present .. => .Present
  | .SetFullscreenState .. => .SetFullscreenState
  | .PeekMessage .. => .PeekMessage
  | .TranslateMessage .. => .TranslateMessage
  | .DispatchMessage .. => .DispatchMessage

/-- The objects released by the commands of a trace, in order. -/
def releases : List Cmd → List Nat
  | [] => []
  | .Release o :: cs => o :: releases cs
  | _ :: cs => releases cs

/-- The commands a state transformer issues from `s`. -/
def issued (f : World → World) (s : World) : List Cmd := (f s).trace.drop s.trace.length

/-- The order of calls of a complete `InitD3D` (lines 34-110, 130-193, 199-230). -/
def initOrder : List Kind :=
  [ .D3D11CreateDeviceAndSwapChain, .GetBuffer, .CreateRenderTargetView, .Release,
    .OMSetRenderTargets, .RSSetViewports,
    .D3DX11CompileFromFile, .D3DX11CompileFromFile, .CreateVertexShader, .CreatePixelShader,
    .VSSetShader, .PSSetShader, .CreateInputLayout, .IASetInputLayout,
    .CreateBuffer, .Map, .memcpy, .Unmap ]

/-- The six global handles `CleanD3D` goes through, in its order. -/
def teardownHandles (s : World) : List Handle :=
  [s.swapchain, s.backbuffer, s.dev, s.devcon, s.pVS, s.pPS]

/-! ## Predicates on states, statements and traces -/

/-- What every statement of the program does: nothing once the run has
faulted; otherwise it either faults before issuing its call, or issues exactly
one call, which satisfies `Q`, and the run goes on. -/
def Step (Q : Cmd → Prop) (f : World → World) : Prop :=
  ∀ s, (s.fault ≠ none → f s = s) ∧
    (s.fault = none →
      ((f s).trace = s.trace ∧ (f s).fault ≠ none) ∨
      (∃ c, Q c ∧ (f s).trace = s.trace ++ [c] ∧ (f s).fault = none))

/-- The arguments that are fixed in the source: whatever the run, a command
of one of these kinds carries these values (`hWnd` is the window of the run). -/
def argsOK (hWnd : Nat) : Cmd → Prop
  | .D3D11CreateDeviceAndSwapChain dt sv d =>
      dt = D3D_DRIVER_TYPE_HARDWARE ∧ sv = D3D11_SDK_VERSION ∧ d = scd hWnd
  | .GetBuffer _ i => i = 0
  | .OMSetRenderTargets _ n _ => n = 1
  | .RSSetViewports _ n vp => n = 1 ∧ vp = viewport
  | .CreateInputLayout _ e n _ => e = ied ∧ n = 2
  | .CreateBuffer _ b => b = bd
  | .Map _ _ t => t = D3D11_MAP_WRITE_DISCARD
  | .memcpy _ src bytes => src = vertices ∧ bytes = sizeofVertices
  | .IASetVertexBuffers _ slot n _ stride off =>
      slot = 0 ∧ n = 1 ∧ stride = sizeofVertex ∧ off = 0
  | .IASetPrimitiveTopology _ t => t = D3D11_PRIMITIVE_TOPOLOGY_TRIANGLELIST
  | .Draw _ vc sv => vc = 3 ∧ sv = 0
  | .Present _ si fl => si = 0 ∧ fl = 0
  | .SetFullscreenState _ fs => fs = false
  | .PeekMessage r _ => r = PM_REMOVE
  | _ => True

/-- The function `f` issues calls of the kinds `ks`, in this order, each
satisfying `P`; it stops before the end of `ks` only by a fault, and does
nothing from a faulted state. -/
def Issues (P : Cmd → Prop) (f : World → World) (ks : List Kind) : Prop :=
  ∀ s, (s.fault ≠ none → f s = s) ∧
    (s.fault = none → ∃ l, (f s).trace = s.trace ++ l ∧ (∀ c ∈ l, P c) ∧
      l.map Cmd.kind <+: ks ∧ ((f s).fault = none → l.map Cmd.kind = ks))

/-- The eight global interface pointers. -/
def globalPtrs : List Ptr :=
  [.swapchain, .dev, .devcon, .backbuffer, .pVS, .pPS, .pVBuffer, .pInputLayout]

/-- An initialized rendering state: the run has not faulted and each of the
eight global pointers refers to a live object. -/
def Initialized (s : World) : Prop :=
  s.fault = none ∧ ∀ p ∈ globalPtrs, s.alive (s.get p) = true

instance (s : World) : Decidable (Initialized s) := by
  unfold Initialized; infer_instance

/-- A fully initialized state, as `InitD3D` leaves it when every call
succeeds: initialized, one reference held per object, and the six handles of
the teardown refer to six different objects. -/
def FullyInitialized (s : World) : Prop :=
  Initialized s ∧ s.live.Nodup ∧ ((teardownHandles s).filterMap id).Nodup

instance (s : World) : Decidable (FullyInitialized s) := by
  unfold FullyInitialized; infer_instance

/-- The calls of `InitD3D` from program start when every native call succeeds
(the value `InitD3D_allSucceed` computes). -/
def initTrace (hWnd : Nat) : List Cmd :=
  [ .D3D11CreateDeviceAndSwapChain D3D_DRIVER_TYPE_HARDWARE D3D11_SDK_VERSION (scd hWnd),
    .GetBuffer 0 0,
    .CreateRenderTargetView 1 (some 3),
    .Release 3,
    .OMSetRenderTargets 2 1 (some 4),
    .RSSetViewports 2 1 viewport,
    .D3DX11CompileFromFile "shaders.shader" "VShader" "vs_4_0",
    .D3DX11CompileFromFile "shaders.shader" "PShader" "ps_4_0",
    .CreateVertexShader 1 5,
    .CreatePixelShader 1 6,
    .VSSetShader 2 (some 7),
    .PSSetShader 2 (some 8),
    .CreateInputLayout 1 ied 2 5,
    .IASetInputLayout 2 (some 9),
    .CreateBuffer 1 bd,
    .Map 2 (some 10) D3D11_MAP_WRITE_DISCARD,
    .memcpy 10 vertices sizeofVertices,
    .Unmap 2 (some 10) ]

/-- The state `InitD3D` reaches from program start when every native call
succeeds (the value `InitD3D_allSucceed` computes): eleven references handed
out, the transient back-buffer reference 3 released. -/
def afterInit (hWnd : Nat) : World :=
  { swapchain := some 0, dev := some 1, devcon := some 2, backbuffer := some 4,
    pVS := some 7, pPS := some 8, pVBuffer := some 10, pInputLayout := some 9,
    pBackBuffer := some 3, VS := some 5, PS := some 6, ms_pData := some 10, msg := none,
    live := [10, 9, 8, 7, 6, 5, 4, 2, 1, 0],
    acquired := [0, 1, 2, 3, 4, 5, 6, 7, 8, 9, 10],
    next := 11,
    tolerated := [],
    trace := initTrace hWnd,
    fault := none }

/-- The kinds of calls one pass of the main loop can issue. -/
def loopKinds : List Kind :=
  [ .PeekMessage, .TranslateMessage, .DispatchMessage,
    .IASetVertexBuffers, .IASetPrimitiveTopology, .Draw, .Present ]

/-- The kinds of calls `CleanD3D` can issue. -/
def cleanKinds : List Kind := [.SetFullscreenState, .Release]

/-- The command `D3DX11CompileFromFile` issues for the vertex shader. -/
def compileVShader : Cmd := .D3DX11CompileFromFile "shaders.shader" "VShader" "vs_4_0"

/-- The command `D3DX11CompileFromFile` issues for the pixel shader. -/
def compilePShader : Cmd := .D3DX11CompileFromFile "shaders.shader" "PShader" "ps_4_0"

/-- The calls of `InitPipeline` when every native call succeeds, entered in
the state the first part of `InitD3D` leaves from program start. -/
def pipelineCalls : List Cmd :=
  [ compileVShader, compilePShader,
    .CreateVertexShader 1 5,
    .CreatePixelShader 1 6,
    .VSSetShader 2 (some 7),
    .PSSetShader 2 (some 8),
    .CreateInputLayout 1 ied 2 5,
    .IASetInputLayout 2 (some 9) ]

/-- The order of calls of the first part of `InitD3D`, up to the viewport. -/
def prologueOrder : List Kind :=
  [ .D3D11CreateDeviceAndSwapChain, .GetBuffer, .CreateRenderTargetView, .Release,
    .OMSetRenderTargets, .RSSetViewports ]

/-- The state of one pass of the loop (the second component of `loopBody`). -/
def loopPass (found : Option MSG) (s : World) : World := (loopBody found s).2

/-- The four calls of one `RenderFrame` through context `dc` and swap chain
`sc`, the vertex buffer pointer holding `vb`. -/
def frameCalls (dc sc : Nat) (vb : Handle) : List Cmd :=
  [ .IASetVertexBuffers dc 0 1 vb sizeofVertex 0,
    .IASetPrimitiveTopology dc D3D11_PRIMITIVE_TOPOLOGY_TRIANGLELIST,
    .Draw dc 3 0,
    .Present sc 0 0 ]

/-- Whether a command binds a render-target view that exists as the only render target. -/
def bindsRenderTarget : Cmd → Bool
  | .OMSetRenderTargets _ 1 (some _) => true
  | _ => false

/-- Whether a command sets one viewport. -/
def setsViewport : Cmd → Bool
  | .RSSetViewports _ 1 _ => true
  | _ => false

/-- Whether a command binds a vertex shader that exists. -/
def bindsVertexShader : Cmd → Bool
  | .VSSetShader _ (some _) => true
  | _ => false

/-- Whether a command binds a pixel shader that exists. -/
def bindsPixelShader : Cmd → Bool
  | .PSSetShader _ (some _) => true
  | _ => false

/-- Whether a command binds an input layout that exists. -/
def bindsInputLayout : Cmd → Bool
  | .IASetInputLayout _ (some _) => true
  | _ => false

/-- Whether a command ends the upload into a vertex buffer that exists. -/
def uploadsVertexBuffer : Cmd → Bool
  | .Unmap _ (some _) => true
  | _ => false

/-- The render target, the viewport, the pipeline (both shader stages and the
input layout) and the vertex buffer have all been set up by the calls `pre`:
each was bound, set or filled, with an object that exists. -/
def SetUp (pre : List Cmd) : Bool :=
  pre.any bindsRenderTarget && pre.any setsViewport && pre.any bindsVertexShader &&
    pre.any bindsPixelShader && pre.any bindsInputLayout && pre.any uploadsVertexBuffer

/-- In a run, a frame is drawn and presented although not everything has been set up. -/
def DrawsWithoutSetUp (w : World) : Prop :=
  w.fault = none ∧ SetUp w.trace = false ∧
    (w.trace.map Cmd.kind).contains .Draw = true ∧
    (w.trace.map Cmd.kind).contains .Present = true

instance (w : World) : Decidable (DrawsWithoutSetUp w) := by
  unfold DrawsWithoutSetUp; infer_instance

/-! ## Lemmas and theorems -/

@[simp] theorem emit_trace (c : Cmd) (s : World) : (emit c s).trace = s.trace ++ [c] := rfl

@[simp] theorem emit_fault (c : Cmd) (s : World) : (emit c s).fault = s.fault := rfl

@[simp] theorem emit_live (c : Cmd) (s : World) : (emit c s).live = s.live := rfl

@[simp] theorem emit_get (c : Cmd) (s : World) (p : Ptr) : (emit c s).get p = s.get p := by
  cases p <;> rfl

@[simp] theorem set_trace (s : World) (p : Ptr) (h : Handle) : (s.set p h).trace = s.trace := by
  cases p <;> rfl

@[simp] theorem set_fault (s : World) (p : Ptr) (h : Handle) : (s.set p h).fault = s.fault := by
  cases p <;> rfl

@[simp] theorem set_live (s : World) (p : Ptr) (h : Handle) : (s.set p h).live = s.live := by
  cases p <;> rfl

@[simp] theorem acquire_trace (s : World) : (acquire s).trace = s.trace := rfl

@[simp] theorem acquire_fault (s : World) : (acquire s).fault = s.fault := rfl

@[simp] theorem drop_trace (o : Nat) (s : World) : (drop o s).trace = s.trace := rfl

@[simp] theorem drop_fault (o : Nat) (s : World) : (drop o s).fault = s.fault := rfl

@[simp] theorem created_trace (ok : Bool) (p : Ptr) (s : World) :
    (created ok p s).trace = s.trace := by
  cases ok <;> simp [created]

@[simp] theorem created_fault (ok : Bool) (p : Ptr) (s : World) :
    (created ok p s).fault = s.fault := by
  cases ok <;> simp [created]

theorem stmt_of_fault (body : World → World) (s : World) (h : s.fault ≠ none) :
    stmt body s = s := by
  cases hf : s.fault with
  | none => exact absurd hf h
  | some _ => simp [stmt, hf]

theorem stmt_of_running (body : World → World) (s : World) (h : s.fault = none) :
    stmt body s = body s := by
  simp [stmt, h]

theorem Step.mono {Q R : Cmd → Prop} {f : World → World} (h : Step Q f)
    (hQR : ∀ c, Q c → R c) : Step R f := by
  intro s
  refine ⟨(h s).1, fun hf => ?_⟩
  rcases (h s).2 hf with h1 | ⟨c, hc, h2⟩
  · exact Or.inl h1
  · exact Or.inr ⟨c, hQR c hc, h2⟩

theorem step_deref (Q : Cmd → Prop) (p : Ptr) (h : Handle) (s : World) (k : Nat → World)
    (hk : ∀ o, ∃ c, Q c ∧ (k o).trace = s.trace ++ [c] ∧ (k o).fault = none) :
    ((deref p h s k).trace = s.trace ∧ (deref p h s k).fault ≠ none) ∨
      (∃ c, Q c ∧ (deref p h s k).trace = s.trace ++ [c] ∧ (deref p h s k).fault = none) := by
  cases h with
  | none => left; simp [deref]
  | some o =>
    by_cases ho : o ∈ s.live ∨ p ∈ s.tolerated
    · right; simpa only [deref, ho, if_true] using hk o
    · left; simp only [deref, ho, if_false]; simp

theorem step_callVia {Q : Cmd → Prop} (p : Ptr) (c : Nat → World → Cmd)
    (h : ∀ o s, Q (c o s)) : Step Q (callVia p c) := by
  intro s
  refine ⟨fun hf => stmt_of_fault _ s hf, fun hf => ?_⟩
  rw [callVia, stmt_of_running _ s hf]
  exact step_deref Q p _ s _ (fun o => ⟨c o s, h o s, by simp, by simp [hf]⟩)

theorem step_createVia {Q : Cmd → Prop} (p : Ptr) (c : Nat → World → Cmd)
    (ok : World → Bool) (out : Ptr) (h : ∀ o s, Q (c o s)) : Step Q (createVia p c ok out) := by
  intro s
  refine ⟨fun hf => stmt_of_fault _ s hf, fun hf => ?_⟩
  rw [createVia, stmt_of_running _ s hf]
  exact step_deref Q p _ s _ (fun o => ⟨c o s, h o s, by simp, by simp [hf]⟩)

theorem step_createFromBlob {Q : Cmd → Prop} (blobVar : Ptr) (c : Nat → Nat → Cmd)
    (ok : Bool) (out : Ptr) (h : ∀ d blob, Q (c d blob)) :
    Step Q (createFromBlob blobVar c ok out) := by
  intro s
  refine ⟨fun hf => stmt_of_fault _ s hf, fun hf => ?_⟩
  rw [createFromBlob, stmt_of_running _ s hf]
  cases hb : s.get blobVar with
  | none => left; simp [deref]
  | some blob =>
    by_cases hl : blob ∈ s.live ∨ blobVar ∈ s.tolerated
    · simp only [deref, hl, if_true]
      exact step_deref Q .dev _ s _
        (fun d => ⟨c d blob, h d blob, by simp, by simp [hf]⟩)
    · left; simp only [deref, hl, if_false]; simp

theorem step_Release (p : Ptr) : Step (fun c => ∃ o, c = .Release o) (Release p) := by
  intro s
  refine ⟨fun hf => stmt_of_fault _ s hf, fun hf => ?_⟩
  rw [Release, stmt_of_running _ s hf]
  exact step_deref _ p _ s _ (fun o => ⟨.Release o, ⟨o, rfl⟩, by simp, by simp [hf]⟩)

theorem step_D3D11CreateDeviceAndSwapChain (ok : Bool) (desc : DXGI_SWAP_CHAIN_DESC) :
    Step (fun c => c = .D3D11CreateDeviceAndSwapChain D3D_DRIVER_TYPE_HARDWARE
      D3D11_SDK_VERSION desc) (D3D11CreateDeviceAndSwapChain ok desc) := by
  intro s
  refine ⟨fun hf => stmt_of_fault _ s hf, fun hf => ?_⟩
  rw [D3D11CreateDeviceAndSwapChain, stmt_of_running _ s hf]
  right
  exact ⟨_, rfl, by simp, by simp [hf]⟩

theorem step_D3DX11CompileFromFile (ok : Bool) (file entry profile : String) (out : Ptr) :
    Step (fun c => c = .D3DX11CompileFromFile file entry profile)
      (D3DX11CompileFromFile ok file entry profile out) := by
  intro s
  refine ⟨fun hf => stmt_of_fault _ s hf, fun hf => ?_⟩
  rw [D3DX11CompileFromFile, stmt_of_running _ s hf]
  right
  exact ⟨_, rfl, by simp, by simp [hf]⟩

theorem step_Map (ok : Bool) :
    Step (fun c => ∃ dc r, c = .Map dc r D3D11_MAP_WRITE_DISCARD) (devcon_Map ok) := by
  intro s
  refine ⟨fun hf => stmt_of_fault _ s hf, fun hf => ?_⟩
  rw [devcon_Map, stmt_of_running _ s hf]
  exact step_deref _ .devcon _ s _
    (fun o => ⟨.Map o s.pVBuffer D3D11_MAP_WRITE_DISCARD, ⟨_, _, rfl⟩, by simp, by simp [hf]⟩)

theorem step_PeekMessage (found : Option MSG) :
    Step (fun c => c = .PeekMessage PM_REMOVE found) (PeekMessage found) := by
  intro s
  refine ⟨fun hf => stmt_of_fault _ s hf, fun hf => ?_⟩
  rw [PeekMessage, stmt_of_running _ s hf]
  right
  exact ⟨_, rfl, by simp [emit], by simp [emit, hf]⟩

theorem step_emit (c : Cmd) : Step (fun x => x = c) (stmt (emit c)) := by
  intro s
  refine ⟨fun hf => stmt_of_fault _ s hf, fun hf => ?_⟩
  rw [stmt_of_running _ s hf]
  right
  exact ⟨_, rfl, by simp, by simp [hf]⟩

theorem issues_of_step {P : Cmd → Prop} {f : World → World} {k : Kind}
    (h : Step (fun c => P c ∧ c.kind = k) f) : Issues P f [k] := by
  intro s
  refine ⟨(h s).1, fun hf => ?_⟩
  rcases (h s).2 hf with ⟨h1, h2⟩ | ⟨c, ⟨hP, hk⟩, h1, _⟩
  · exact ⟨[], by simp [h1], by simp, by simp, fun h3 => absurd h3 h2⟩
  · exact ⟨[c], h1, by simpa using hP, by simp [hk], fun _ => by simp [hk]⟩

theorem issues_comp {P : Cmd → Prop} {f g : World → World} {F G : List Kind}
    (hf : Issues P f F) (hg : Issues P g G) : Issues P (fun s => g (f s)) (F ++ G) := by
  intro s
  constructor
  · intro h
    show g (f s) = s
    rw [(hf s).1 h, (hg s).1 h]
  · intro h
    obtain ⟨l1, ht1, hP1, hpre1, hfull1⟩ := (hf s).2 h
    by_cases h1 : (f s).fault = none
    · obtain ⟨l2, ht2, hP2, hpre2, hfull2⟩ := (hg (f s)).2 h1
      refine ⟨l1 ++ l2, ?_, ?_, ?_, ?_⟩
      · show (g (f s)).trace = _
        rw [ht2, ht1, List.append_assoc]
      · intro c hc
        rcases List.mem_append.mp hc with hc | hc
        · exact hP1 c hc
        · exact hP2 c hc
      · rw [List.map_append, hfull1 h1]
        obtain ⟨r, hr⟩ := hpre2
        exact ⟨r, by rw [List.append_assoc, hr]⟩
      · intro h2
        rw [List.map_append, hfull1 h1, hfull2 h2]
    · refine ⟨l1, ?_, hP1, ?_, ?_⟩
      · show (g (f s)).trace = _
        rw [(hg (f s)).1 h1, ht1]
      · obtain ⟨r, hr⟩ := hpre1
        exact ⟨r ++ G, by rw [← List.append_assoc, hr]⟩
      · intro h2
        have : g (f s) = f s := (hg (f s)).1 h1
        exact absurd (this ▸ h2) h1

theorem issues_nil (P : Cmd → Prop) : Issues P (seq []) [] := by
  intro s
  exact ⟨fun _ => rfl, fun _ => ⟨[], by simp [seq], by simp, by simp, fun _ => rfl⟩⟩

theorem issues_cons {P : Cmd → Prop} {f : World → World} {fs : List (World → World)}
    {F G : List Kind} (hf : Issues P f F) (hfs : Issues P (seq fs) G) :
    Issues P (seq (f :: fs)) (F ++ G) :=
  fun s => issues_comp hf hfs s

theorem issues_step_cons {P : Cmd → Prop} {f : World → World} {fs : List (World → World)}
    {k : Kind} {ks : List Kind} (hf : Step (fun c => P c ∧ c.kind = k) f)
    (hfs : Issues P (seq fs) ks) : Issues P (seq (f :: fs)) (k :: ks) :=
  fun s => issues_comp (issues_of_step hf) hfs s

theorem seq_append (fs gs : List (World → World)) (s : World) :
    seq (fs ++ gs) s = seq gs (seq fs s) := by
  simp [seq, List.foldl_append]

theorem issues_append {P : Cmd → Prop} {fs gs : List (World → World)} {F G : List Kind}
    (hf : Issues P (seq fs) F) (hg : Issues P (seq gs) G) :
    Issues P (seq (fs ++ gs)) (F ++ G) := by
  have h := issues_comp hf hg
  intro s
  rw [seq_append]
  exact h s

/-- From any state, `f` only appends to the trace, and what it appends
satisfies `P` and is of one of the kinds `ks`. -/
theorem Issues.appends {P : Cmd → Prop} {f : World → World} {ks : List Kind}
    (h : Issues P f ks) (s : World) :
    ∃ l, (f s).trace = s.trace ++ l ∧ (∀ c ∈ l, P c ∧ c.kind ∈ ks) ∧
      (s.fault ≠ none → l = []) := by
  by_cases hf : s.fault = none
  · obtain ⟨l, h1, h2, h3, _⟩ := (h s).2 hf
    refine ⟨l, h1, fun c hc => ⟨h2 c hc, ?_⟩, fun h4 => absurd hf h4⟩
    exact h3.subset (List.mem_map_of_mem _ hc)
  · exact ⟨[], by rw [(h s).1 hf]; simp, by simp, fun _ => rfl⟩

theorem Issues.sticky {P : Cmd → Prop} {f : World → World} {ks : List Kind}
    (h : Issues P f ks) (s : World) (hf : s.fault ≠ none) : f s = s := (h s).1 hf

theorem issues_InitD3D_prologue (env : Native) (hWnd : Nat) :
    Issues (argsOK hWnd) (seq (InitD3D_prologue env hWnd)) prologueOrder := by
  unfold InitD3D_prologue prologueOrder
  apply issues_step_cons (Step.mono (step_D3D11CreateDeviceAndSwapChain _ _)
    (by rintro _ rfl; simp [argsOK, Cmd.kind]))
  apply issues_step_cons (step_createVia _ _ _ _ (by intros; simp [argsOK, Cmd.kind]))
  apply issues_step_cons (step_createVia _ _ _ _ (by intros; simp [argsOK, Cmd.kind]))
  apply issues_step_cons (Step.mono (step_Release _)
    (by rintro _ ⟨o, rfl⟩; simp [argsOK, Cmd.kind]))
  apply issues_step_cons (step_callVia _ _ (by intros; simp [argsOK, Cmd.kind]))
  apply issues_step_cons (step_callVia _ _ (by intros; simp [argsOK, Cmd.kind]))
  exact issues_nil _

theorem issues_InitPipeline (env : Native) (hWnd : Nat) :
    Issues (argsOK hWnd) (InitPipeline env)
      [.D3DX11CompileFromFile, .D3DX11CompileFromFile, .CreateVertexShader, .CreatePixelShader,
       .VSSetShader, .PSSetShader, .CreateInputLayout, .IASetInputLayout] := by
  unfold InitPipeline InitPipeline_body
  apply issues_step_cons (Step.mono (step_D3DX11CompileFromFile _ _ _ _ _)
    (by rintro _ rfl; simp [argsOK, Cmd.kind]))
  apply issues_step_cons (Step.mono (step_D3DX11CompileFromFile _ _ _ _ _)
    (by rintro _ rfl; simp [argsOK, Cmd.kind]))
  apply issues_step_cons (step_createFromBlob _ _ _ _ (by intros; simp [argsOK, Cmd.kind]))
  apply issues_step_cons (step_createFromBlob _ _ _ _ (by intros; simp [argsOK, Cmd.kind]))
  apply issues_step_cons (step_callVia _ _ (by intros; simp [argsOK, Cmd.kind]))
  apply issues_step_cons (step_callVia _ _ (by intros; simp [argsOK, Cmd.kind]))
  apply issues_step_cons (step_createFromBlob _ _ _ _ (by intros; simp [argsOK, Cmd.kind]))
  apply issues_step_cons (step_callVia _ _ (by intros; simp [argsOK, Cmd.kind]))
  exact issues_nil _

theorem issues_InitGraphics (env : Native) (hWnd : Nat) :
    Issues (argsOK hWnd) (InitGraphics env) [.CreateBuffer, .Map, .memcpy, .Unmap] := by
  unfold InitGraphics InitGraphics_body
  apply issues_step_cons (step_createVia _ _ _ _ (by intros; simp [argsOK, Cmd.kind]))
  apply issues_step_cons (Step.mono (step_Map _)
    (by rintro _ ⟨dc, r, rfl⟩; simp [argsOK, Cmd.kind]))
  apply issues_step_cons (step_callVia _ _ (by intros; simp [argsOK, Cmd.kind]))
  apply issues_step_cons (step_callVia _ _ (by intros; simp [argsOK, Cmd.kind]))
  exact issues_nil _

theorem issues_InitD3D (env : Native) (hWnd : Nat) :
    Issues (argsOK hWnd) (InitD3D env hWnd) initOrder := by
  unfold InitD3D
  exact issues_append (issues_InitD3D_prologue env hWnd)
    (issues_cons (issues_InitPipeline env hWnd)
      (issues_cons (issues_InitGraphics env hWnd) (issues_nil _)))

theorem issues_RenderFrame (hWnd : Nat) :
    Issues (argsOK hWnd) RenderFrame
      [.IASetVertexBuffers, .IASetPrimitiveTopology, .Draw, .Present] := by
  unfold RenderFrame RenderFrame_body
  apply issues_step_cons (step_callVia _ _ (by intros; simp [argsOK, Cmd.kind]))
  apply issues_step_cons (step_callVia _ _ (by intros; simp [argsOK, Cmd.kind]))
  apply issues_step_cons (step_callVia _ _ (by intros; simp [argsOK, Cmd.kind]))
  apply issues_step_cons (step_callVia _ _ (by intros; simp [argsOK, Cmd.kind]))
  exact issues_nil _

theorem issues_CleanD3D (hWnd : Nat) :
    Issues (argsOK hWnd) CleanD3D
      [.SetFullscreenState, .Release, .Release, .Release, .Release, .Release, .Release] := by
  unfold CleanD3D CleanD3D_body
  apply issues_step_cons (step_callVia _ _ (by intros; simp [argsOK, Cmd.kind]))
  iterate 6
    apply issues_step_cons (Step.mono (step_Release _)
      (by rintro _ ⟨o, rfl⟩; simp [argsOK, Cmd.kind]))
  exact issues_nil _

theorem alive_iff (s : World) (h : Handle) :
    s.alive h = true ↔ ∃ o, h = some o ∧ o ∈ s.live := by
  cases h <;> simp [World.alive]

theorem RenderFrame_run (s : World) (dc sc : Nat) (hf : s.fault = none)
    (hdc : s.devcon = some dc) (hdcl : dc ∈ s.live)
    (hsc : s.swapchain = some sc) (hscl : sc ∈ s.live) :
    RenderFrame s = { s with trace := s.trace ++
      [ .IASetVertexBuffers dc 0 1 s.pVBuffer sizeofVertex 0,
        .IASetPrimitiveTopology dc D3D11_PRIMITIVE_TOPOLOGY_TRIANGLELIST,
        .Draw dc 3 0,
        .Present sc 0 0 ] } := by
  simp [RenderFrame, RenderFrame_body, seq, callVia, stmt, deref, World.get, emit, hf, hdc,
    hdcl, hsc, hscl]

/-- C1. In every initialized rendering state one call of `RenderFrame` issues
exactly four calls and nothing else: it binds the vertex buffer in slot 0 (one
buffer) with stride `sizeof(Vertex)` = 28 and offset 0, sets the topology to
triangle list, draws 3 vertices from vertex 0, and presents with sync
interval 0; the run does not fault. -/
theorem C1_RenderFrame_issues_bind_topology_draw_present (s : World) (h : Initialized s) :
    ∃ dc sc vb, s.devcon = some dc ∧ s.swapchain = some sc ∧ s.pVBuffer = some vb ∧
      (RenderFrame s).trace = s.trace ++
        [ .IASetVertexBuffers dc 0 1 (some vb) 28 0,
          .IASetPrimitiveTopology dc D3D11_PRIMITIVE_TOPOLOGY_TRIANGLELIST,
          .Draw dc 3 0,
          .Present sc 0 0 ] ∧
      (RenderFrame s).fault = none := by
  obtain ⟨hf, hp⟩ := h
  obtain ⟨dc, hdc, hdcl⟩ := (alive_iff s _).mp (hp .devcon (by simp [globalPtrs]))
  obtain ⟨sc, hsc, hscl⟩ := (alive_iff s _).mp (hp .swapchain (by simp [globalPtrs]))
  obtain ⟨vb, hvb, _⟩ := (alive_iff s _).mp (hp .pVBuffer (by simp [globalPtrs]))
  simp only [World.get] at hdc hsc hvb
  refine ⟨dc, sc, vb, hdc, hsc, hvb, ?_, ?_⟩
  · rw [RenderFrame_run s dc sc hf hdc hdcl hsc hscl, hvb]
    rfl
  · rw [RenderFrame_run s dc sc hf hdc hdcl hsc hscl]
    exact hf

/-- C1 (witness). The state `InitD3D` leaves when every call succeeds is
initialized, and `RenderFrame` issues its four calls there. -/
theorem C1_witness :
    Initialized (InitD3D Native.allSucceed 0 start) ∧
    ∃ dc sc vb, (InitD3D Native.allSucceed 0 start).devcon = some dc ∧
      (InitD3D Native.allSucceed 0 start).swapchain = some sc ∧
      (InitD3D Native.allSucceed 0 start).pVBuffer = some vb ∧
      (RenderFrame (InitD3D Native.allSucceed 0 start)).trace =
        (InitD3D Native.allSucceed 0 start).trace ++
        [ .IASetVertexBuffers dc 0 1 (some vb) 28 0,
          .IASetPrimitiveTopology dc D3D11_PRIMITIVE_TOPOLOGY_TRIANGLELIST,
          .Draw dc 3 0,
          .Present sc 0 0 ] ∧
      (RenderFrame (InitD3D Native.allSucceed 0 start)).fault = none :=
  ⟨by decide, C1_RenderFrame_issues_bind_topology_draw_present _ (by decide)⟩

theorem issued_of_trace (f : World → World) (s : World) (l : List Cmd)
    (h : (f s).trace = s.trace ++ l) : issued f s = l := by
  simp [issued, h]

theorem InitD3D_allSucceed (hWnd : Nat) : InitD3D Native.allSucceed hWnd start = afterInit hWnd := by
  simp [InitD3D, InitD3D_prologue, InitPipeline, InitPipeline_body, InitGraphics,
    InitGraphics_body, seq, stmt, deref, callVia, createVia, createFromBlob, Release,
    D3D11CreateDeviceAndSwapChain, D3DX11CompileFromFile, devcon_Map, created, acquire, drop,
    emit, World.get, World.set, World.alive, start, afterInit, initTrace, Native.allSucceed]

/-- What `InitPipeline` issues when every native call succeeds, entered in
the state the first part of `InitD3D` leaves. -/
theorem InitPipeline_allSucceed_issued (hWnd : Nat) :
    issued (InitPipeline Native.allSucceed)
      (seq (InitD3D_prologue Native.allSucceed hWnd) start) = pipelineCalls := by
  apply issued_of_trace
  simp [InitD3D_prologue, InitPipeline, InitPipeline_body, seq, stmt, deref, callVia,
    createVia, createFromBlob, Release, D3D11CreateDeviceAndSwapChain, D3DX11CompileFromFile,
    created, acquire, drop, emit, World.get, World.set, World.alive, start, pipelineCalls,
    compileVShader, compilePShader, Native.allSucceed]

/-- Whenever `InitPipeline` completes, it has created an input layout from
`ied` with 2 elements. -/
theorem InitPipeline_creates_layout (env : Native) (s : World) (hf : s.fault = none)
    (hdone : (InitPipeline env s).fault = none) :
    ∃ d blob, Cmd.CreateInputLayout d ied 2 blob ∈ issued (InitPipeline env) s := by
  obtain ⟨l, hl, hP, _, hfull⟩ := (issues_InitPipeline env 0 s).2 hf
  rw [issued_of_trace _ _ _ hl]
  have hk := hfull hdone
  have h6 : (l.map Cmd.kind)[6]? = some .CreateInputLayout := by
    rw [hk]; rfl
  rw [List.getElem?_map] at h6
  cases hc : l[6]? with
  | none => rw [hc] at h6; simp at h6
  | some c =>
    rw [hc] at h6
    have hmem : c ∈ l := List.getElem?_mem hc
    have ha := hP c hmem
    cases c <;> simp [Cmd.kind] at h6
    simp only [argsOK] at ha
    obtain ⟨h1, h2⟩ := ha
    subst h1 h2
    exact ⟨_, _, hmem⟩

/-- C2. The input layout built by `InitPipeline` agrees with the layout of
`Vertex`. `InitPipeline` creates its input layout from `ied` with 2 elements:
with every call succeeding its calls are `pipelineCalls`, whenever it
completes it has issued that `CreateInputLayout`, and it never passes any
other description. In `ied`, POSITION is three 32-bit floats (12 bytes)
declared at offset 0 and COLOR is four 32-bit floats (16 bytes) declared
append-aligned, which resolves to offset 12. `Vertex` has its position at
offset 0 and its color at offset 12, right after the position (no padding),
and `sizeof(Vertex)` is 28 = 12 + 16. `RenderFrame` binds the vertex buffer
with that stride: in every initialized state it issues `IASetVertexBuffers`
with stride 28, and never with another stride. -/
theorem C2_input_layout_agrees_with_Vertex :
    (∀ hWnd : Nat, issued (InitPipeline Native.allSucceed)
      (seq (InitD3D_prologue Native.allSucceed hWnd) start) = pipelineCalls) ∧
    Cmd.CreateInputLayout 1 ied 2 5 ∈ pipelineCalls ∧
    (∀ (env : Native) (s : World), s.fault = none → (InitPipeline env s).fault = none →
      ∃ d blob, Cmd.CreateInputLayout d ied 2 blob ∈ issued (InitPipeline env) s) ∧
    (∀ (env : Native) (s : World) (d : Nat) (e : List D3D11_INPUT_ELEMENT_DESC) (n blob : Nat),
      Cmd.CreateInputLayout d e n blob ∈ issued (InitPipeline env) s → e = ied ∧ n = 2) ∧
    ied.map (fun e => (e.SemanticName, e.Format, e.Format.bytes, e.AlignedByteOffset)) =
      [ ("POSITION", .R32G32B32_FLOAT, 12, 0),
        ("COLOR", .R32G32B32A32_FLOAT, 16, D3D11_APPEND_ALIGNED_ELEMENT) ] ∧
    resolveOffsets ied 0 = [0, 12] ∧
    memberOffsets VertexMembers 0 = [0, 4, 8, 12] ∧
    offsetofPosition = 0 ∧ offsetofColor = 12 ∧
    offsetofColor = offsetofPosition + DXGI_FORMAT.R32G32B32_FLOAT.bytes ∧
    sizeofVertex = offsetofColor + DXGI_FORMAT.R32G32B32A32_FLOAT.bytes ∧
    sizeofVertex = 28 ∧
    (∀ hWnd : Nat, issued RenderFrame (InitD3D Native.allSucceed hWnd start) =
      [ .IASetVertexBuffers 2 0 1 (some 10) 28 0,
        .IASetPrimitiveTopology 2 D3D11_PRIMITIVE_TOPOLOGY_TRIANGLELIST,
        .Draw 2 3 0, .Present 0 0 0 ]) ∧
    (∀ s : World, Initialized s →
      ∃ dc b, Cmd.IASetVertexBuffers dc 0 1 b 28 0 ∈ issued RenderFrame s) ∧
    ∀ (s : World) (dc slot n : Nat) (b : Handle) (stride off : Nat),
      Cmd.IASetVertexBuffers dc slot n b stride off ∈ issued RenderFrame s → stride = 28 := by
  refine ⟨InitPipeline_allSucceed_issued, by decide, InitPipeline_creates_layout, ?_,
    by decide, by decide, by decide, by decide, by decide, by decide, by decide, by decide,
    ?_, ?_, ?_⟩
  · intro env s d e n blob hc
    obtain ⟨l, hl, hP, _⟩ := (issues_InitPipeline env 0).appends s
    rw [issued_of_trace _ _ _ hl] at hc
    exact (hP _ hc).1
  · intro hWnd
    apply issued_of_trace
    rw [InitD3D_allSucceed,
      RenderFrame_run (afterInit hWnd) 2 0 rfl rfl (by simp [afterInit]) rfl
        (by simp [afterInit])]
    rfl
  · intro s ⟨hf, hp⟩
    obtain ⟨dc, hdc, hdcl⟩ := (alive_iff s _).mp (hp .devcon (by simp [globalPtrs]))
    obtain ⟨sc, hsc, hscl⟩ := (alive_iff s _).mp (hp .swapchain (by simp [globalPtrs]))
    simp only [World.get] at hdc hsc
    refine ⟨dc, s.pVBuffer, ?_⟩
    rw [issued_of_trace RenderFrame s _
      (by rw [RenderFrame_run s dc sc hf hdc hdcl hsc hscl])]
    have h28 : sizeofVertex = 28 := by decide
    rw [h28]
    simp
  · intro s dc slot n b stride off hc
    obtain ⟨l, hl, hP, _⟩ := (issues_RenderFrame 0).appends s
    rw [issued_of_trace _ _ _ hl] at hc
    have := (hP _ hc).1
    simp only [argsOK] at this
    rw [this.2.2.1]
    decide

/-- The result of `CleanD3D` in a state whose six teardown handles refer to
six different live objects, one reference each. -/
theorem CleanD3D_run (s : World) (sc bb d dc vs ps : Nat) (hf : s.fault = none)
    (hh : teardownHandles s = [some sc, some bb, some d, some dc, some vs, some ps])
    (hn : [sc, bb, d, dc, vs, ps].Nodup) (hl : ∀ o ∈ [sc, bb, d, dc, vs, ps], o ∈ s.live) :
    CleanD3D s = { s with
      trace := s.trace ++ [ .SetFullscreenState sc false, .Release sc, .Release bb,
        .Release d, .Release dc, .Release vs, .Release ps ]
      live := (((((s.live.erase sc).erase bb).erase d).erase dc).erase vs).erase ps } := by
  simp only [teardownHandles, List.cons.injEq, and_true] at hh
  obtain ⟨h1, h2, h3, h4, h5, h6⟩ := hh
  simp only [List.nodup_cons, List.mem_cons, List.mem_singleton, not_or, List.not_mem_nil,
    not_false_eq_true, List.nodup_nil, and_true] at hn
  simp only [List.mem_cons, List.mem_singleton, forall_eq_or_imp, forall_eq, List.not_mem_nil,
    false_imp_iff, implies_true, and_true] at hl
  obtain ⟨l1, l2, l3, l4, l5, l6⟩ := hl
  obtain ⟨⟨n12, n13, n14, n15, n16⟩, ⟨n23, n24, n25, n26⟩, ⟨n34, n35, n36⟩, ⟨n45, n46⟩, n56⟩ := hn
  have e2 : bb ∈ s.live.erase sc := (List.mem_erase_of_ne (Ne.symm n12)).mpr l2
  have e3 : d ∈ (s.live.erase sc).erase bb :=
    (List.mem_erase_of_ne (Ne.symm n23)).mpr ((List.mem_erase_of_ne (Ne.symm n13)).mpr l3)
  have e4 : dc ∈ ((s.live.erase sc).erase bb).erase d :=
    (List.mem_erase_of_ne (Ne.symm n34)).mpr ((List.mem_erase_of_ne (Ne.symm n24)).mpr
      ((List.mem_erase_of_ne (Ne.symm n14)).mpr l4))
  have e5 : vs ∈ (((s.live.erase sc).erase bb).erase d).erase dc :=
    (List.mem_erase_of_ne (Ne.symm n45)).mpr ((List.mem_erase_of_ne (Ne.symm n35)).mpr
      ((List.mem_erase_of_ne (Ne.symm n25)).mpr ((List.mem_erase_of_ne (Ne.symm n15)).mpr l5)))
  have e6 : ps ∈ ((((s.live.erase sc).erase bb).erase d).erase dc).erase vs :=
    (List.mem_erase_of_ne (Ne.symm n56)).mpr ((List.mem_erase_of_ne (Ne.symm n46)).mpr
      ((List.mem_erase_of_ne (Ne.symm n36)).mpr ((List.mem_erase_of_ne (Ne.symm n26)).mpr
        ((List.mem_erase_of_ne (Ne.symm n16)).mpr l6))))
  simp [CleanD3D, CleanD3D_body, seq, callVia, Release, stmt, deref, World.get, emit, drop,
    hf, h1, h2, h3, h4, h5, h6, l1, e2, e3, e4, e5, e6]

/-- What `FullyInitialized` says about the six teardown handles. -/
theorem FullyInitialized.handles {s : World} (h : FullyInitialized s) :
    ∃ sc bb d dc vs ps,
      teardownHandles s = [some sc, some bb, some d, some dc, some vs, some ps] ∧
      [sc, bb, d, dc, vs, ps].Nodup ∧ (∀ o ∈ [sc, bb, d, dc, vs, ps], o ∈ s.live) := by
  obtain ⟨⟨_, hp⟩, _, hn⟩ := h
  obtain ⟨sc, hsc, hscl⟩ := (alive_iff s _).mp (hp .swapchain (by simp [globalPtrs]))
  obtain ⟨bb, hbb, hbbl⟩ := (alive_iff s _).mp (hp .backbuffer (by simp [globalPtrs]))
  obtain ⟨d, hd, hdl⟩ := (alive_iff s _).mp (hp .dev (by simp [globalPtrs]))
  obtain ⟨dc, hdc, hdcl⟩ := (alive_iff s _).mp (hp .devcon (by simp [globalPtrs]))
  obtain ⟨vs, hvs, hvsl⟩ := (alive_iff s _).mp (hp .pVS (by simp [globalPtrs]))
  obtain ⟨ps, hps, hpsl⟩ := (alive_iff s _).mp (hp .pPS (by simp [globalPtrs]))
  simp only [World.get] at hsc hbb hd hdc hvs hps
  have hh : teardownHandles s = [some sc, some bb, some d, some dc, some vs, some ps] := by
    simp [teardownHandles, hsc, hbb, hd, hdc, hvs, hps]
  refine ⟨sc, bb, d, dc, vs, ps, hh, ?_, ?_⟩
  · rw [hh] at hn
    simpa using hn
  · intro o ho
    simp only [List.mem_cons, List.mem_singleton, List.not_mem_nil, or_false] at ho
    rcases ho with rfl | rfl | rfl | rfl | rfl | rfl <;> assumption

theorem CleanD3D_afterInit (hWnd : Nat) :
    CleanD3D (afterInit hWnd) = { afterInit hWnd with
      trace := (afterInit hWnd).trace ++ [ .SetFullscreenState 0 false, .Release 0, .Release 4,
        .Release 1, .Release 2, .Release 7, .Release 8 ]
      live := [10, 9, 6, 5] } := by
  rw [CleanD3D_run (afterInit hWnd) 0 4 1 2 7 8 rfl rfl (by decide) (by simp [afterInit])]
  rfl

/-- C3 (the code at the failing input). When `CreateVertexShader` fails,
`InitD3D` completes without fault and leaves `pVS` null; `CleanD3D` then
releases the swap chain, the view, the device and the context and goes on to
`pVS->Release()` through the null pointer, where the run faults, the pixel
shader still unreleased. The same happens at `pVS` when the pipeline was
never initialized. The release of `pVS` is not guarded by whether the shader
was created. -/
theorem C3_CleanD3D_releases_through_null_pVS :
    (InitD3D { Native.allSucceed with createVertexShader := false } 0 start).fault = none ∧
    (InitD3D { Native.allSucceed with createVertexShader := false } 0 start).pVS = none ∧
    (CleanD3D (InitD3D { Native.allSucceed with createVertexShader := false } 0
      start)).fault = some (.nullPointer .pVS) ∧
    releases (issued CleanD3D (InitD3D { Native.allSucceed with createVertexShader := false } 0
      start)) = [0, 4, 1, 2] ∧
    (WinMain { Native.allSucceed with createVertexShader := false } 0
      [some ⟨WM_QUIT, 0⟩]).fault = some (.nullPointer .pVS) ∧
    (seq (InitD3D_prologue Native.allSucceed 0) start).fault = none ∧
    (seq (InitD3D_prologue Native.allSucceed 0) start).pVS = none ∧
    (seq (InitD3D_prologue Native.allSucceed 0) start).pPS = none ∧
    (CleanD3D (seq (InitD3D_prologue Native.allSucceed 0) start)).fault =
      some (.nullPointer .pVS) := by
  decide

theorem releases_append (a b : List Cmd) : releases (a ++ b) = releases a ++ releases b := by
  induction a with
  | nil => rfl
  | cons c a ih => cases c <;> simp [releases, ih]

/-- One call of `CleanD3D` from a fully initialized state: what it issues,
and that afterwards none of the six objects is live. -/
theorem CleanD3D_once (s : World) (h : FullyInitialized s) :
    ∃ sc bb d dc vs ps,
      teardownHandles s = [some sc, some bb, some d, some dc, some vs, some ps] ∧
      [sc, bb, d, dc, vs, ps].Nodup ∧
      CleanD3D s = { s with
        trace := s.trace ++ [ .SetFullscreenState sc false, .Release sc, .Release bb,
          .Release d, .Release dc, .Release vs, .Release ps ]
        live := (((((s.live.erase sc).erase bb).erase d).erase dc).erase vs).erase ps } ∧
      ∀ o ∈ [sc, bb, d, dc, vs, ps], o ∉ (CleanD3D s).live := by
  obtain ⟨sc, bb, d, dc, vs, ps, hh, hn, hl⟩ := h.handles
  have hrun := CleanD3D_run s sc bb d dc vs ps h.1.1 hh hn hl
  refine ⟨sc, bb, d, dc, vs, ps, hh, hn, hrun, ?_⟩
  intro o ho hmem
  rw [hrun] at hmem
  have hnd := h.2.1
  simp only [List.mem_cons, List.mem_singleton, List.not_mem_nil, or_false] at ho
  have e1 := hnd.erase sc
  have e2 := e1.erase bb
  have e3 := e2.erase d
  have e4 := e3.erase dc
  have e5 := e4.erase vs
  simp only [e5.mem_erase_iff, e4.mem_erase_iff, e3.mem_erase_iff, e2.mem_erase_iff,
    e1.mem_erase_iff, hnd.mem_erase_iff] at hmem
  obtain ⟨h6, h5, h4, h3, h2, h1, _⟩ := hmem
  rcases ho with rfl | rfl | rfl | rfl | rfl | rfl <;> simp_all

theorem issues_CleanD3D_rest (hWnd : Nat) :
    Issues (argsOK hWnd) (seq (CleanD3D_body.drop 2))
      [.Release, .Release, .Release, .Release, .Release] := by
  simp only [CleanD3D_body, List.drop_succ_cons, List.drop_zero]
  iterate 5
    apply issues_step_cons (Step.mono (step_Release _)
      (by rintro _ ⟨o, rfl⟩; simp [argsOK, Cmd.kind]))
  exact issues_nil _

/-- A call of `CleanD3D` in a state whose swap-chain pointer refers to a
released object: where that is not tolerated the run faults at once, nothing
issued; where it is, the call goes on and releases the swap chain again. -/
theorem CleanD3D_on_released (s : World) (sc : Nat) (hf : s.fault = none)
    (hsc : s.swapchain = some sc) (hdead : sc ∉ s.live) :
    (Ptr.swapchain ∉ s.tolerated →
      CleanD3D s = { s with fault := some (.released .swapchain sc) }) ∧
    (Ptr.swapchain ∈ s.tolerated →
      ∃ rest, (CleanD3D s).trace =
        s.trace ++ .SetFullscreenState sc false :: .Release sc :: rest) := by
  constructor
  · intro ht
    simp [CleanD3D, CleanD3D_body, seq, callVia, Release, stmt, deref, World.get, hf, hsc,
      hdead, ht]
  · intro ht
    have h0 : CleanD3D s = seq (CleanD3D_body.drop 2)
        (Release .swapchain (callVia .swapchain (fun o _ => .SetFullscreenState o false) s)) :=
      rfl
    have h1 : Release .swapchain (callVia .swapchain (fun o _ => .SetFullscreenState o false) s) =
        { s with
          trace := s.trace ++ [.SetFullscreenState sc false, .Release sc]
          live := s.live.erase sc } := by
      simp [callVia, Release, stmt, deref, World.get, emit, drop, hf, hsc, hdead, ht]
    obtain ⟨l, hl, _⟩ := (issues_CleanD3D_rest 0).appends
      (Release .swapchain (callVia .swapchain (fun o _ => .SetFullscreenState o false) s))
    refine ⟨l, ?_⟩
    rw [h0, hl, h1]
    simp

/-- Two calls of `CleanD3D` in a row from a fully initialized state: either
the second ends the run by a fault, or an object is released twice. -/
theorem CleanD3D_twice (s : World) (h : FullyInitialized s) :
    (CleanD3D s).fault = none ∧
    ((CleanD3D (CleanD3D s)).fault ≠ none ∨
      ¬ (releases (issued (fun x => CleanD3D (CleanD3D x)) s)).Nodup) := by
  obtain ⟨sc, bb, d, dc, vs, ps, hh, _, hrun, hlive⟩ := CleanD3D_once s h
  have hf1 : (CleanD3D s).fault = none := by rw [hrun]; exact h.1.1
  have hsc : (CleanD3D s).swapchain = some sc := by
    simp only [teardownHandles, List.cons.injEq] at hh
    rw [hrun]
    exact hh.1
  have htol : (CleanD3D s).tolerated = s.tolerated := by rw [hrun]
  obtain ⟨hA, hB⟩ := CleanD3D_on_released (CleanD3D s) sc hf1 hsc (hlive sc (by simp))
  refine ⟨hf1, ?_⟩
  by_cases ht : Ptr.swapchain ∈ s.tolerated
  · right
    obtain ⟨rest, hrest⟩ := hB (htol ▸ ht)
    have htr : (CleanD3D s).trace = s.trace ++ [ .SetFullscreenState sc false, .Release sc,
        .Release bb, .Release d, .Release dc, .Release vs, .Release ps ] := by rw [hrun]
    have hiss : issued (fun x => CleanD3D (CleanD3D x)) s =
        [ .SetFullscreenState sc false, .Release sc, .Release bb, .Release d, .Release dc,
          .Release vs, .Release ps ] ++ (.SetFullscreenState sc false :: .Release sc :: rest) :=
      issued_of_trace _ _ _ (by rw [hrest, htr, List.append_assoc])
    rw [hiss, releases_append]
    intro hnd
    have hdis := List.disjoint_of_nodup_append hnd
    exact hdis (a := sc) (by simp [releases]) (by simp [releases])
  · left
    rw [hA (htol ▸ ht)]
    simp

theorem InitD3D_allSucceed_with (L : List Ptr) (hWnd : Nat) :
    InitD3D Native.allSucceed hWnd (startWith L) = { afterInit hWnd with tolerated := L } := by
  simp [InitD3D, InitD3D_prologue, InitPipeline, InitPipeline_body, InitGraphics,
    InitGraphics_body, seq, stmt, deref, callVia, createVia, createFromBlob, Release,
    D3D11CreateDeviceAndSwapChain, D3DX11CompileFromFile, devcon_Map, created, acquire, drop,
    emit, World.get, World.set, World.alive, start, startWith, afterInit, initTrace,
    Native.allSucceed]

theorem fullyInitialized_afterInit (L : List Ptr) (hWnd : Nat) :
    FullyInitialized { afterInit hWnd with tolerated := L } := by
  refine ⟨⟨rfl, ?_⟩, ?_, ?_⟩
  · simp [globalPtrs, afterInit, World.alive, World.get]
  · show ([10, 9, 8, 7, 6, 5, 4, 2, 1, 0] : List Nat).Nodup
    decide
  · show ([0, 4, 1, 2, 7, 8] : List Nat).Nodup
    decide

/-- C4 (counterexample). Teardown is not idempotent. The claim, for a fully
initialized state: two calls in a row leave the resource state of one call
(no fault, the same live objects, the same handles), and no object is
released twice. It fails in the state `InitD3D` leaves when every call
succeeds, whatever a call through a released pointer does (whatever pointers
are tolerated): the first `CleanD3D` releases the swap chain and keeps the
pointer, so the second one either faults on it or releases the swap chain a
second time. -/
theorem C4_counterexample :
    ¬ ∃ L : List Ptr,
      (CleanD3D (CleanD3D (InitD3D Native.allSucceed 0 (startWith L)))).fault =
        (CleanD3D (InitD3D Native.allSucceed 0 (startWith L))).fault ∧
      (CleanD3D (CleanD3D (InitD3D Native.allSucceed 0 (startWith L)))).live =
        (CleanD3D (InitD3D Native.allSucceed 0 (startWith L))).live ∧
      (∀ p ∈ globalPtrs,
        (CleanD3D (CleanD3D (InitD3D Native.allSucceed 0 (startWith L)))).get p =
          (CleanD3D (InitD3D Native.allSucceed 0 (startWith L))).get p) ∧
      (releases (issued (fun x => CleanD3D (CleanD3D x))
        (InitD3D Native.allSucceed 0 (startWith L)))).Nodup := by
  rintro ⟨L, h1, _, _, h4⟩
  rw [InitD3D_allSucceed_with] at h1 h4
  obtain ⟨hf, h2⟩ := CleanD3D_twice _ (fullyInitialized_afterInit L 0)
  rcases h2 with h2 | h2
  · rw [h1] at h2
    exact h2 hf
  · exact h2 h4

/-- C4 (amended). From a fully initialized state one call of `CleanD3D` runs
without fault and releases the object of each of its six handles exactly once
(six releases in all), after which none of them is live; it does not reset
the handle variables, so the swap-chain pointer still refers to the released
swap chain. A second call in a row therefore is not a no-op: its first
statement is a call through that pointer. Where such a call is not tolerated
the run faults there, nothing more issued; where it is, the second call
issues `SetFullscreenState` and releases the swap chain again. Either way
two calls in a row end in a fault or release an object twice. -/
theorem C4_CleanD3D_releases_once_and_keeps_handles (s : World) (h : FullyInitialized s) :
    (CleanD3D s).fault = none ∧
    (releases (issued CleanD3D s)).length = 6 ∧
    (∀ x ∈ teardownHandles s, ∃ o, x = some o ∧
      (releases (issued CleanD3D s)).count o = 1 ∧ o ∉ (CleanD3D s).live) ∧
    teardownHandles (CleanD3D s) = teardownHandles s ∧
    (∃ sc, s.swapchain = some sc ∧ (CleanD3D s).swapchain = some sc ∧
      sc ∉ (CleanD3D s).live ∧
      (Ptr.swapchain ∉ s.tolerated →
        CleanD3D (CleanD3D s) =
          { CleanD3D s with fault := some (.released .swapchain sc) }) ∧
      (Ptr.swapchain ∈ s.tolerated →
        ∃ rest, issued CleanD3D (CleanD3D s) =
          .SetFullscreenState sc false :: .Release sc :: rest)) ∧
    ((CleanD3D (CleanD3D s)).fault ≠ none ∨
      ¬ (releases (issued (fun x => CleanD3D (CleanD3D x)) s)).Nodup) := by
  obtain ⟨sc, bb, d, dc, vs, ps, hh, hn, hrun, hlive⟩ := CleanD3D_once s h
  have hiss : issued CleanD3D s = [ .SetFullscreenState sc false, .Release sc, .Release bb,
      .Release d, .Release dc, .Release vs, .Release ps ] :=
    issued_of_trace _ _ _ (by rw [hrun])
  have hsc : s.swapchain = some sc := by
    simp only [teardownHandles, List.cons.injEq] at hh
    exact hh.1
  have hf1 : (CleanD3D s).fault = none := by rw [hrun]; exact h.1.1
  have hsc1 : (CleanD3D s).swapchain = some sc := by rw [hrun]; exact hsc
  have htol : (CleanD3D s).tolerated = s.tolerated := by rw [hrun]
  obtain ⟨hA, hB⟩ := CleanD3D_on_released (CleanD3D s) sc hf1 hsc1 (hlive sc (by simp))
  simp only [List.nodup_cons, List.mem_cons, List.mem_singleton, not_or, List.not_mem_nil,
    not_false_eq_true, List.nodup_nil, and_true] at hn
  obtain ⟨⟨n12, n13, n14, n15, n16⟩, ⟨n23, n24, n25, n26⟩, ⟨n34, n35, n36⟩, ⟨n45, n46⟩, n56⟩ := hn
  refine ⟨hf1, by rw [hiss]; rfl, ?_, by rw [hrun]; rfl,
    ⟨sc, hsc, hsc1, hlive sc (by simp), fun ht => hA (htol ▸ ht), fun ht => ?_⟩,
    (CleanD3D_twice s h).2⟩
  · intro x hx
    rw [hh] at hx
    simp only [List.mem_cons, List.mem_singleton, List.not_mem_nil, or_false] at hx
    rw [hiss]
    rcases hx with rfl | rfl | rfl | rfl | rfl | rfl
    · exact ⟨sc, rfl, by simp [releases, List.count_cons, *], hlive sc (by simp)⟩
    · exact ⟨bb, rfl, by simp [releases, List.count_cons, Ne.symm, *], hlive bb (by simp)⟩
    · exact ⟨d, rfl, by simp [releases, List.count_cons, Ne.symm, *], hlive d (by simp)⟩
    · exact ⟨dc, rfl, by simp [releases, List.count_cons, Ne.symm, *], hlive dc (by simp)⟩
    · exact ⟨vs, rfl, by simp [releases, List.count_cons, Ne.symm, *], hlive vs (by simp)⟩
    · exact ⟨ps, rfl, by simp [releases, List.count_cons, Ne.symm, *], hlive ps (by simp)⟩
  · obtain ⟨rest, hrest⟩ := hB (htol ▸ ht)
    exact ⟨rest, issued_of_trace _ _ _ hrest⟩

/-- C4 (witness). The state `InitD3D` leaves when every call succeeds is fully
initialized, with the swap-chain pointer tolerated as well as not: one
`CleanD3D` releases each handle once; a second one faults on the released
swap chain in the first state and releases it again in the other. -/
theorem C4_witness :
    FullyInitialized (InitD3D Native.allSucceed 0 start) ∧
    FullyInitialized (InitD3D Native.allSucceed 0 (startWith [.swapchain])) ∧
    (CleanD3D (CleanD3D (InitD3D Native.allSucceed 0 start))).fault =
      some (.released .swapchain 0) ∧
    (∃ rest, issued CleanD3D (CleanD3D (InitD3D Native.allSucceed 0 (startWith [.swapchain]))) =
      .SetFullscreenState 0 false :: .Release 0 :: rest) := by
  have h1 : FullyInitialized (InitD3D Native.allSucceed 0 start) := by decide
  have h2 : FullyInitialized (InitD3D Native.allSucceed 0 (startWith [.swapchain])) := by decide
  obtain ⟨_, _, _, _, ⟨sc, hsc, _, _, hA, _⟩, _⟩ :=
    C4_CleanD3D_releases_once_and_keeps_handles _ h1
  obtain ⟨_, _, _, _, ⟨sc2, hsc2, _, _, _, hB⟩, _⟩ :=
    C4_CleanD3D_releases_once_and_keeps_handles _ h2
  have e1 : sc = 0 := by
    have : (InitD3D Native.allSucceed 0 start).swapchain = some 0 := by decide
    rw [this] at hsc
    exact (Option.some.inj hsc).symm
  have e2 : sc2 = 0 := by
    have : (InitD3D Native.allSucceed 0 (startWith [.swapchain])).swapchain = some 0 := by decide
    rw [this] at hsc2
    exact (Option.some.inj hsc2).symm
  subst e1 e2
  refine ⟨h1, h2, ?_, hB (by decide)⟩
  rw [hA (by decide)]

/-- C5 (the code at the failing input). For every window, with every native
call succeeding, `InitD3D` acquires eleven references and `InitD3D` followed
by `CleanD3D` releases seven of them (the transient back buffer, then the six
handles of the teardown); four stay live: the vertex buffer, the input layout
and the two compiled shader blobs are never released. -/
theorem C5_InitD3D_then_CleanD3D_leaves_four_live (hWnd : Nat) :
    (CleanD3D (InitD3D Native.allSucceed hWnd start)).fault = none ∧
    (InitD3D Native.allSucceed hWnd start).acquired = [0, 1, 2, 3, 4, 5, 6, 7, 8, 9, 10] ∧
    releases (CleanD3D (InitD3D Native.allSucceed hWnd start)).trace = [3, 0, 4, 1, 2, 7, 8] ∧
    (CleanD3D (InitD3D Native.allSucceed hWnd start)).live = [10, 9, 6, 5] ∧
    (CleanD3D (InitD3D Native.allSucceed hWnd start)).pVBuffer = some 10 ∧
    (CleanD3D (InitD3D Native.allSucceed hWnd start)).pInputLayout = some 9 ∧
    (CleanD3D (InitD3D Native.allSucceed hWnd start)).PS = some 6 ∧
    (CleanD3D (InitD3D Native.allSucceed hWnd start)).VS = some 5 := by
  rw [InitD3D_allSucceed, CleanD3D_afterInit]
  refine ⟨rfl, rfl, ?_, rfl, rfl, rfl, rfl, rfl⟩
  simp [afterInit, initTrace, releases]

/-- C7 (counterexample). After `InitD3D` with every call succeeding,
`CleanD3D` releases the objects 0, 4, 1, 2, 7, 8 in this order, which were
acquired in the order 0, 1, 2, 4, 7, 8: the releases are not in reverse order
of acquisition. -/
theorem C7_counterexample :
    ¬ ∀ s : World, FullyInitialized s →
      releases (issued CleanD3D s) =
        (s.acquired.filter (fun o => decide (o ∈ releases (issued CleanD3D s)))).reverse := by
  intro h
  exact absurd (h (InitD3D Native.allSucceed 0 start) (by decide)) (by decide)

/-- C7 (amended). From a fully initialized state `CleanD3D` releases, in this
order: the swap chain, the render-target view, the device, the context, the
vertex shader, the pixel shader. In a run from program start with every call
succeeding these were acquired in the order swap chain, device, context,
render-target view, vertex shader, pixel shader: the teardown follows the
order of acquisition, except that the view goes before the device and the
context; it is not the reverse. -/
theorem C7_CleanD3D_release_order (s : World) (h : FullyInitialized s) :
    (∃ sc bb d dc vs ps,
      s.swapchain = some sc ∧ s.backbuffer = some bb ∧ s.dev = some d ∧
      s.devcon = some dc ∧ s.pVS = some vs ∧ s.pPS = some ps ∧
      releases (issued CleanD3D s) = [sc, bb, d, dc, vs, ps]) ∧
    ∀ hWnd : Nat,
      releases (issued CleanD3D (InitD3D Native.allSucceed hWnd start)) = [0, 4, 1, 2, 7, 8] ∧
      (InitD3D Native.allSucceed hWnd start).acquired.filter
        (fun o => decide (o ∈ [0, 4, 1, 2, 7, 8])) = [0, 1, 2, 4, 7, 8] := by
  constructor
  · obtain ⟨sc, bb, d, dc, vs, ps, hh, hn, hl⟩ := h.handles
    have hrun := CleanD3D_run s sc bb d dc vs ps h.1.1 hh hn hl
    have hiss : issued CleanD3D s = [ .SetFullscreenState sc false, .Release sc, .Release bb,
        .Release d, .Release dc, .Release vs, .Release ps ] :=
      issued_of_trace _ _ _ (by rw [hrun])
    simp only [teardownHandles, List.cons.injEq, and_true] at hh
    obtain ⟨h1, h2, h3, h4, h5, h6⟩ := hh
    exact ⟨sc, bb, d, dc, vs, ps, h1, h2, h3, h4, h5, h6, by rw [hiss]; rfl⟩
  · intro hWnd
    rw [InitD3D_allSucceed]
    have hiss := issued_of_trace CleanD3D (afterInit hWnd) _
      (by rw [CleanD3D_afterInit])
    rw [hiss]
    exact ⟨rfl, rfl⟩

/-- C7 (witness). The release order of `CleanD3D` in the state `InitD3D`
leaves when every call succeeds. -/
theorem C7_witness :
    FullyInitialized (InitD3D Native.allSucceed 0 start) ∧
    ((∃ sc bb d dc vs ps,
      (InitD3D Native.allSucceed 0 start).swapchain = some sc ∧
      (InitD3D Native.allSucceed 0 start).backbuffer = some bb ∧
      (InitD3D Native.allSucceed 0 start).dev = some d ∧
      (InitD3D Native.allSucceed 0 start).devcon = some dc ∧
      (InitD3D Native.allSucceed 0 start).pVS = some vs ∧
      (InitD3D Native.allSucceed 0 start).pPS = some ps ∧
      releases (issued CleanD3D (InitD3D Native.allSucceed 0 start)) =
        [sc, bb, d, dc, vs, ps]) ∧
    ∀ hWnd : Nat,
      releases (issued CleanD3D (InitD3D Native.allSucceed hWnd start)) = [0, 4, 1, 2, 7, 8] ∧
      (InitD3D Native.allSucceed hWnd start).acquired.filter
        (fun o => decide (o ∈ [0, 4, 1, 2, 7, 8])) = [0, 1, 2, 4, 7, 8]) :=
  ⟨by decide, C7_CleanD3D_release_order _ (by decide)⟩

theorem issues_pump (hWnd : Nat) (m : MSG) :
    Issues (argsOK hWnd)
      (seq [PeekMessage (some m), stmt (emit (.TranslateMessage m)),
        stmt (emit (.DispatchMessage m))])
      [.PeekMessage, .TranslateMessage, .DispatchMessage] := by
  apply issues_step_cons (Step.mono (step_PeekMessage _)
    (by rintro _ rfl; simp [argsOK, Cmd.kind]))
  apply issues_step_cons (Step.mono (step_emit _) (by rintro _ rfl; simp [argsOK, Cmd.kind]))
  apply issues_step_cons (Step.mono (step_emit _) (by rintro _ rfl; simp [argsOK, Cmd.kind]))
  exact issues_nil _

theorem issues_peek_none (hWnd : Nat) :
    Issues (argsOK hWnd) (PeekMessage none) [.PeekMessage] :=
  issues_of_step (Step.mono (step_PeekMessage _) (by rintro _ rfl; simp [argsOK, Cmd.kind]))

/-- One pass of the loop only appends calls of the loop kinds, and does
nothing in a faulted run. -/
theorem loopBody_appends (hWnd : Nat) (found : Option MSG) (s : World) :
    ∃ l, (loopBody found s).2.trace = s.trace ++ l ∧
      (∀ c ∈ l, argsOK hWnd c ∧ c.kind ∈ loopKinds) ∧
      (s.fault ≠ none → (loopBody found s).2 = s) := by
  cases found with
  | none =>
    have h := issues_comp (issues_peek_none hWnd) (issues_RenderFrame hWnd)
    obtain ⟨l, h1, h2, _⟩ := h.appends s
    refine ⟨l, h1, fun c hc => ⟨(h2 c hc).1, ?_⟩, fun hf => h.sticky s hf⟩
    have := (h2 c hc).2
    simp only [loopKinds]
    simp only [List.cons_append, List.nil_append, List.mem_cons, List.mem_singleton,
      List.not_mem_nil, or_false] at this ⊢
    tauto
  | some m =>
    by_cases hq : m.message = WM_QUIT
    · have h := issues_pump hWnd m
      obtain ⟨l, h1, h2, _⟩ := h.appends s
      refine ⟨l, by simpa [loopBody, hq] using h1, fun c hc => ⟨(h2 c hc).1, ?_⟩,
        fun hf => by simpa [loopBody, hq] using h.sticky s hf⟩
      have := (h2 c hc).2
      simp only [loopKinds]
      simp only [List.mem_cons, List.mem_singleton, List.not_mem_nil, or_false] at this ⊢
      tauto
    · have h := issues_comp (issues_pump hWnd m) (issues_RenderFrame hWnd)
      obtain ⟨l, h1, h2, _⟩ := h.appends s
      refine ⟨l, by simpa [loopBody, hq] using h1, fun c hc => ⟨(h2 c hc).1, ?_⟩,
        fun hf => by simpa [loopBody, hq] using h.sticky s hf⟩
      have := (h2 c hc).2
      simp only [loopKinds]
      simpa using this

/-- The main loop only appends calls of the loop kinds, and does nothing in
a faulted run. -/
theorem mainLoop_appends (hWnd : Nat) (script : List (Option MSG)) :
    ∀ s : World, ∃ l, (mainLoop script s).2.trace = s.trace ++ l ∧
      (∀ c ∈ l, argsOK hWnd c ∧ c.kind ∈ loopKinds) ∧
      (s.fault ≠ none → (mainLoop script s).2 = s) := by
  induction script with
  | nil => intro s; exact ⟨[], by simp [mainLoop], by simp, fun _ => rfl⟩
  | cons found rest ih =>
    intro s
    by_cases hf : s.fault = none
    · obtain ⟨l1, h1, h2, _⟩ := loopBody_appends hWnd found s
      rcases hb : loopBody found s with ⟨b, s1⟩
      rw [hb] at h1
      cases b with
      | true =>
        refine ⟨l1, ?_, h2, fun h => absurd hf h⟩
        simp only [mainLoop, hf, Option.isSome_none, Bool.false_eq_true, if_false, hb]
        exact h1
      | false =>
        obtain ⟨l2, h3, h4, _⟩ := ih s1
        refine ⟨l1 ++ l2, ?_, ?_, fun h => absurd hf h⟩
        · simp only [mainLoop, hf, Option.isSome_none, Bool.false_eq_true, if_false, hb]
          rw [h3]
          simp only at h1
          rw [h1, List.append_assoc]
        · intro c hc
          rcases List.mem_append.mp hc with hc | hc
          · exact h2 c hc
          · exact h4 c hc
    · have hs : s.fault.isSome = true := by
        cases h : s.fault with
        | none => exact absurd h hf
        | some _ => rfl
      exact ⟨[], by simp [mainLoop, hs], by simp, fun _ => by simp [mainLoop, hs]⟩

/-- What the whole program issues after `InitD3D`: calls of the loop and of
`CleanD3D` only, and nothing at all when `InitD3D` ended in a fault. -/
theorem WinMain_appends (env : Native) (hWnd : Nat) (script : List (Option MSG)) :
    ∃ l, (WinMain env hWnd script).trace = (InitD3D env hWnd start).trace ++ l ∧
      (∀ c ∈ l, argsOK hWnd c ∧ c.kind ∈ loopKinds ++ cleanKinds) ∧
      ((InitD3D env hWnd start).fault ≠ none →
        WinMain env hWnd script = InitD3D env hWnd start) := by
  obtain ⟨l1, h1, h2, h3⟩ := mainLoop_appends hWnd script (InitD3D env hWnd start)
  rcases hb : mainLoop script (InitD3D env hWnd start) with ⟨b, s1⟩
  rw [hb] at h1 h3
  simp only at h1 h3
  cases b with
  | false =>
    refine ⟨l1, by simp only [WinMain, hb]; exact h1, ?_, fun hf => ?_⟩
    · intro c hc
      exact ⟨(h2 c hc).1, List.mem_append_left _ (h2 c hc).2⟩
    · simp only [WinMain, hb]
      exact h3 hf
  | true =>
    obtain ⟨l2, h4, h5, _⟩ := (issues_CleanD3D hWnd).appends s1
    refine ⟨l1 ++ l2, ?_, ?_, fun hf => ?_⟩
    · simp only [WinMain, hb]
      rw [h4, h1, List.append_assoc]
    · intro c hc
      rcases List.mem_append.mp hc with hc | hc
      · exact ⟨(h2 c hc).1, List.mem_append_left _ (h2 c hc).2⟩
      · refine ⟨(h5 c hc).1, List.mem_append_right _ ?_⟩
        have := (h5 c hc).2
        simp only [cleanKinds]
        simp only [List.mem_cons, List.mem_singleton, List.not_mem_nil, or_false] at this ⊢
        tauto
    · simp only [WinMain, hb]
      have hs := h3 hf
      rw [hs]
      exact (issues_CleanD3D hWnd).sticky _ hf

theorem InitD3D_from_start (env : Native) (hWnd : Nat) :
    (∀ c ∈ (InitD3D env hWnd start).trace, argsOK hWnd c) ∧
    (InitD3D env hWnd start).trace.map Cmd.kind <+: initOrder ∧
    ((InitD3D env hWnd start).fault = none →
      (InitD3D env hWnd start).trace.map Cmd.kind = initOrder) := by
  obtain ⟨l, h1, h2, h3, h4⟩ := (issues_InitD3D env hWnd start).2 rfl
  have h : (InitD3D env hWnd start).trace = l := by rw [h1]; rfl
  rw [h]
  exact ⟨h2, h3, h4⟩

/-- When the vertex shader does not compile, `InitPipeline` still issues the
second compile and then faults on the blob pointer `VS`. -/
theorem InitPipeline_VShader_fails (env : Native) (s : World) (hf : s.fault = none)
    (hvs : env.compileVS = false) :
    InitPipeline env s =
      { (created env.compilePS .PS (s.set .VS none)) with
        trace := s.trace ++ [compileVShader, compilePShader]
        fault := some (.nullPointer .VS) } := by
  cases hps : env.compilePS <;>
  simp [InitPipeline, InitPipeline_body, seq, stmt, D3DX11CompileFromFile, createFromBlob,
    callVia, created, deref, emit, acquire, World.get, World.set, hf, hvs, hps,
    compileVShader, compilePShader]

/-- When only the pixel shader does not compile and the device is live,
`InitPipeline` creates the vertex shader and then faults on the blob pointer `PS`. -/
theorem InitPipeline_PShader_fails (env : Native) (s : World) (d : Nat) (hf : s.fault = none)
    (hd : s.dev = some d) (hdl : d ∈ s.live)
    (hvs : env.compileVS = true) (hps : env.compilePS = false) :
    (InitPipeline env s).fault = some (.nullPointer .PS) ∧
    (InitPipeline env s).trace =
      s.trace ++ [compileVShader, compilePShader, .CreateVertexShader d s.next] := by
  cases hc : env.createVertexShader <;>
  simp [InitPipeline, InitPipeline_body, seq, stmt, D3DX11CompileFromFile, createFromBlob,
    callVia, created, deref, emit, acquire, World.get, World.set, hf, hvs, hps, hc, hd, hdl,
    compileVShader, compilePShader]

/-- From program start, the first part of `InitD3D` ends without fault only
with the device live; the device is object 1. -/
theorem prologue_from_start (env : Native) (hWnd : Nat)
    (h : (seq (InitD3D_prologue env hWnd) start).fault = none) :
    (seq (InitD3D_prologue env hWnd) start).dev = some 1 ∧
    1 ∈ (seq (InitD3D_prologue env hWnd) start).live := by
  revert h
  cases h1 : env.createDeviceAndSwapChain <;> cases h2 : env.getBuffer <;>
    cases h3 : env.createRenderTargetView <;>
  simp [InitD3D_prologue, seq, stmt, deref, callVia, createVia, Release,
    D3D11CreateDeviceAndSwapChain, created, acquire, drop, emit, World.get, World.set,
    World.alive, start, h1, h2, h3]

theorem InitD3D_split (env : Native) (hWnd : Nat) (s : World) :
    InitD3D env hWnd s =
      InitGraphics env (InitPipeline env (seq (InitD3D_prologue env hWnd) s)) := by
  simp [InitD3D, seq_append, seq]

theorem issues_InitD3D_rest (env : Native) (hWnd : Nat) :
    Issues (argsOK hWnd)
      (seq ((InitD3D_prologue env hWnd).tail ++ [InitPipeline env, InitGraphics env]))
      initOrder.tail := by
  have h : Issues (argsOK hWnd) (seq (InitD3D_prologue env hWnd).tail)
      [.GetBuffer, .CreateRenderTargetView, .Release, .OMSetRenderTargets, .RSSetViewports] := by
    simp only [InitD3D_prologue, List.tail_cons]
    apply issues_step_cons (step_createVia _ _ _ _ (by intros; simp [argsOK, Cmd.kind]))
    apply issues_step_cons (step_createVia _ _ _ _ (by intros; simp [argsOK, Cmd.kind]))
    apply issues_step_cons (Step.mono (step_Release _)
      (by rintro _ ⟨o, rfl⟩; simp [argsOK, Cmd.kind]))
    apply issues_step_cons (step_callVia _ _ (by intros; simp [argsOK, Cmd.kind]))
    apply issues_step_cons (step_callVia _ _ (by intros; simp [argsOK, Cmd.kind]))
    exact issues_nil _
  exact issues_append h
    (issues_cons (issues_InitPipeline env hWnd)
      (issues_cons (issues_InitGraphics env hWnd) (issues_nil _)))

/-- Whatever fails, the first call of `InitD3D` is the creation of device and
swap chain with the description `scd hWnd`. -/
theorem InitD3D_first_call (env : Native) (hWnd : Nat) :
    ∃ rest, (InitD3D env hWnd start).trace =
      .D3D11CreateDeviceAndSwapChain D3D_DRIVER_TYPE_HARDWARE D3D11_SDK_VERSION (scd hWnd)
        :: rest := by
  have h0 : InitD3D env hWnd start =
      seq ((InitD3D_prologue env hWnd).tail ++ [InitPipeline env, InitGraphics env])
        (D3D11CreateDeviceAndSwapChain env.createDeviceAndSwapChain (scd hWnd) start) := rfl
  obtain ⟨l, hl, _⟩ := (issues_InitD3D_rest env hWnd).appends
    (D3D11CreateDeviceAndSwapChain env.createDeviceAndSwapChain (scd hWnd) start)
  refine ⟨l, ?_⟩
  rw [h0, hl]
  simp [D3D11CreateDeviceAndSwapChain, stmt, start]

/-- C9. For every window handle and every run, the first call of `InitD3D`
creates device and swap chain with the description `scd hWnd`: back buffer
1366 x 768, multisample count 4, windowed, one back buffer, the given window
as output; no other description is ever passed. Every viewport set in the run
has origin (0,0) and the width and height of that back buffer, and when
`InitD3D` completes, the sixth call, after the creation, sets exactly one
such viewport. -/
theorem C9_swap_chain_description_and_viewport (env : Native) (hWnd : Nat)
    (script : List (Option MSG)) :
    (∃ rest, (InitD3D env hWnd start).trace =
      .D3D11CreateDeviceAndSwapChain D3D_DRIVER_TYPE_HARDWARE D3D11_SDK_VERSION (scd hWnd)
        :: rest) ∧
    (scd hWnd).BufferDesc.Width = 1366 ∧ (scd hWnd).BufferDesc.Height = 768 ∧
    (scd hWnd).SampleDesc.Count = 4 ∧ (scd hWnd).Windowed = true ∧
    (scd hWnd).BufferCount = 1 ∧ (scd hWnd).OutputWindow = hWnd ∧
    (∀ (dt sv : Nat) (d : DXGI_SWAP_CHAIN_DESC),
      Cmd.D3D11CreateDeviceAndSwapChain dt sv d ∈ (WinMain env hWnd script).trace →
        d = scd hWnd) ∧
    (∀ (dc n : Nat) (vp : D3D11_VIEWPORT),
      Cmd.RSSetViewports dc n vp ∈ (WinMain env hWnd script).trace →
        n = 1 ∧ vp.TopLeftX = 0 ∧ vp.TopLeftY = 0 ∧
        vp.Width = (scd hWnd).BufferDesc.Width ∧ vp.Height = (scd hWnd).BufferDesc.Height) ∧
    ((InitD3D env hWnd start).fault = none →
      ∃ dc, (InitD3D env hWnd start).trace[5]? = some (.RSSetViewports dc 1 viewport)) := by
  obtain ⟨hargs, _, hfull⟩ := InitD3D_from_start env hWnd
  obtain ⟨r, hr, hrargs, _⟩ := WinMain_appends env hWnd script
  have hall : ∀ c ∈ (WinMain env hWnd script).trace, argsOK hWnd c := by
    intro c hc
    rw [hr] at hc
    rcases List.mem_append.mp hc with hc | hc
    · exact hargs c hc
    · exact (hrargs c hc).1
  refine ⟨InitD3D_first_call env hWnd, rfl, rfl, rfl, rfl, rfl, rfl, ?_, ?_, ?_⟩
  · intro dt sv d hc
    exact (hall _ hc).2.2
  · intro dc n vp hc
    obtain ⟨h1, h2⟩ := hall _ hc
    subst h2
    exact ⟨h1, rfl, rfl, rfl, rfl⟩
  · intro hf
    have hk := hfull hf
    have h5 : ((InitD3D env hWnd start).trace.map Cmd.kind)[5]? = some .RSSetViewports := by
      rw [hk]; rfl
    rw [List.getElem?_map] at h5
    cases hc : (InitD3D env hWnd start).trace[5]? with
    | none => rw [hc] at h5; simp at h5
    | some c =>
      rw [hc] at h5
      have hmem : c ∈ (InitD3D env hWnd start).trace := List.getElem?_mem hc
      have ha := hargs c hmem
      cases c <;> simp [Cmd.kind] at h5
      simp only [argsOK] at ha
      obtain ⟨h1, h2⟩ := ha
      subst h1 h2
      exact ⟨_, rfl⟩

/-- C6 (counterexample). A failed compile is not reported as a
shader-compilation error: no result is checked, and the run is not stopped
before the blob the compile did not produce is used. With the vertex shader
not compiling (every other call succeeding) the program ends by the very use
of the missing blob: a null-pointer fault on `VS` in `CreateVertexShader`. -/
theorem C6_counterexample :
    ¬ ∀ env : Native, env.compileVS = false →
      (WinMain env 0 []).fault ≠ some (.nullPointer .VS) := by
  intro h
  exact absurd (by decide) (h { Native.allSucceed with compileVS := false } rfl)

/-- C6 (amended). In every run in which the compile of either shader stage
fails, the program ends in a fault inside `InitD3D`: the main loop and the
teardown do nothing. `InitPipeline` checks no result: it issues both compiles
and, when only `PShader` failed, creates the vertex shader; the run faults
where the blob of the failed compile is first used (`VS` in
`CreateVertexShader`, `PS` in `CreatePixelShader`). No call other than those
of the first part of `InitD3D`, the compiles and `CreateVertexShader` is ever
issued: no pixel shader is created, nothing is bound to the context, nothing
is drawn or presented, and no vertex shader is created when `VShader` failed. -/
theorem C6_compile_failure_ends_in_fault_at_blob (env : Native) (hWnd : Nat)
    (script : List (Option MSG)) (h : env.compileVS = false ∨ env.compilePS = false) :
    (WinMain env hWnd script).fault ≠ none ∧
    WinMain env hWnd script = InitD3D env hWnd start ∧
    (∀ c ∈ (WinMain env hWnd script).trace, c.kind ∈
      prologueOrder ++ [.D3DX11CompileFromFile, .CreateVertexShader]) ∧
    (env.compileVS = false →
      ∀ c ∈ (WinMain env hWnd script).trace, c.kind ≠ .CreateVertexShader) ∧
    ((seq (InitD3D_prologue env hWnd) start).fault = none → env.compileVS = false →
      issued (InitPipeline env) (seq (InitD3D_prologue env hWnd) start) =
        [compileVShader, compilePShader] ∧
      (WinMain env hWnd script).fault = some (.nullPointer .VS)) ∧
    ((seq (InitD3D_prologue env hWnd) start).fault = none → env.compileVS = true →
      issued (InitPipeline env) (seq (InitD3D_prologue env hWnd) start) =
        [ compileVShader, compilePShader,
          .CreateVertexShader 1 (seq (InitD3D_prologue env hWnd) start).next ] ∧
      (WinMain env hWnd script).fault = some (.nullPointer .PS)) := by
  obtain ⟨r, _, _, hstop⟩ := WinMain_appends env hWnd script
  -- the state in which `InitPipeline` is entered
  obtain ⟨l1, hl1, hk1, _⟩ := (issues_InitD3D_prologue env hWnd).appends start
  have hk1' : ∀ c ∈ (seq (InitD3D_prologue env hWnd) start).trace, c.kind ∈ prologueOrder := by
    intro c hc
    rw [hl1] at hc
    exact (hk1 c (by simpa [start] using hc)).2
  have hsplit := InitD3D_split env hWnd start
  by_cases hf1 : (seq (InitD3D_prologue env hWnd) start).fault = none
  · by_cases hvs : env.compileVS = false
    · -- the vertex shader does not compile
      have hp := InitPipeline_VShader_fails env _ hf1 hvs
      have hpf : (InitPipeline env (seq (InitD3D_prologue env hWnd) start)).fault =
          some (.nullPointer .VS) := by rw [hp]
      have hpt : (InitPipeline env (seq (InitD3D_prologue env hWnd) start)).trace =
          (seq (InitD3D_prologue env hWnd) start).trace ++ [compileVShader, compilePShader] := by
        rw [hp]
      have hg : InitD3D env hWnd start =
          InitPipeline env (seq (InitD3D_prologue env hWnd) start) := by
        rw [hsplit]
        exact (issues_InitGraphics env hWnd).sticky _ (by rw [hpf]; simp)
      have hw : WinMain env hWnd script = InitD3D env hWnd start :=
        hstop (by rw [hg, hpf]; simp)
      have hkinds : ∀ c ∈ (WinMain env hWnd script).trace, c.kind ∈
          prologueOrder ++ [.D3DX11CompileFromFile] := by
        intro c hc
        rw [hw, hg, hpt] at hc
        rcases List.mem_append.mp hc with hc | hc
        · exact (by decide : ∀ k ∈ prologueOrder, k ∈ prologueOrder ++ [.D3DX11CompileFromFile])
            _ (hk1' c hc)
        · simp only [List.mem_cons, List.mem_singleton, List.not_mem_nil, or_false] at hc
          rcases hc with rfl | rfl <;> decide
      refine ⟨by rw [hw, hg, hpf]; simp, hw, ?_, ?_, ?_, ?_⟩
      · intro c hc
        exact (by decide : ∀ k ∈ prologueOrder ++ [.D3DX11CompileFromFile],
          k ∈ prologueOrder ++ [.D3DX11CompileFromFile, .CreateVertexShader]) _ (hkinds c hc)
      · intro _ c hc hcv
        have := hkinds c hc
        rw [hcv] at this
        exact absurd this (by decide)
      · intro _ _
        exact ⟨issued_of_trace _ _ _ hpt, by rw [hw, hg, hpf]⟩
      · intro _ hvt
        rw [hvs] at hvt
        exact absurd hvt (by decide)
    · -- the vertex shader compiles, the pixel shader does not
      have hvt : env.compileVS = true := by
        cases hv : env.compileVS with
        | false => exact absurd hv hvs
        | true => rfl
      have hps : env.compilePS = false := by
        rcases h with h | h
        · exact absurd h hvs
        · exact h
      obtain ⟨hd, hdl⟩ := prologue_from_start env hWnd hf1
      obtain ⟨hpf, hpt⟩ := InitPipeline_PShader_fails env _ 1 hf1 hd hdl hvt hps
      have hg : InitD3D env hWnd start =
          InitPipeline env (seq (InitD3D_prologue env hWnd) start) := by
        rw [hsplit]
        exact (issues_InitGraphics env hWnd).sticky _ (by rw [hpf]; simp)
      have hw : WinMain env hWnd script = InitD3D env hWnd start :=
        hstop (by rw [hg, hpf]; simp)
      refine ⟨by rw [hw, hg, hpf]; simp, hw, ?_, fun hv => absurd hv hvs, ?_, ?_⟩
      · intro c hc
        rw [hw, hg, hpt] at hc
        rcases List.mem_append.mp hc with hc | hc
        · exact (by decide : ∀ k ∈ prologueOrder,
            k ∈ prologueOrder ++ [.D3DX11CompileFromFile, .CreateVertexShader]) _ (hk1' c hc)
        · simp only [List.mem_cons, List.mem_singleton, List.not_mem_nil, or_false] at hc
          rcases hc with rfl | rfl | rfl
          · decide
          · decide
          · show Kind.CreateVertexShader ∈ _
            decide
      · intro _ hv
        exact absurd hv hvs
      · intro _ _
        exact ⟨issued_of_trace _ _ _ hpt, by rw [hw, hg, hpf]⟩
  · -- the run has faulted before `InitPipeline`
    have hg : InitD3D env hWnd start = seq (InitD3D_prologue env hWnd) start := by
      rw [hsplit, (issues_InitPipeline env hWnd).sticky _ hf1]
      exact (issues_InitGraphics env hWnd).sticky _ hf1
    have hw : WinMain env hWnd script = InitD3D env hWnd start := hstop (by rw [hg]; exact hf1)
    have hkinds : ∀ c ∈ (WinMain env hWnd script).trace, c.kind ∈ prologueOrder := by
      intro c hc
      rw [hw, hg] at hc
      exact hk1' c hc
    refine ⟨by rw [hw, hg]; exact hf1, hw, ?_, ?_, fun hx => absurd hx hf1,
      fun hx => absurd hx hf1⟩
    · intro c hc
      exact (by decide : ∀ k ∈ prologueOrder,
        k ∈ prologueOrder ++ [.D3DX11CompileFromFile, .CreateVertexShader]) _ (hkinds c hc)
    · intro _ c hc hcv
      have := hkinds c hc
      rw [hcv] at this
      exact absurd this (by decide)

/-- C6 (witness). With only the compile of the pixel shader failing, the run
ends by the null-pointer fault on `PS`, after exactly the first nine calls of
`initOrder`; the two passes of the loop that would render are never made. -/
theorem C6_witness :
    (({ Native.allSucceed with compilePS := false } : Native).compileVS = false ∨
      ({ Native.allSucceed with compilePS := false } : Native).compilePS = false) ∧
    (WinMain { Native.allSucceed with compilePS := false } 0 [none, none]).fault =
      some (.nullPointer .PS) ∧
    (WinMain { Native.allSucceed with compilePS := false } 0 [none, none]).trace.map Cmd.kind =
      initOrder.take 9 :=
  ⟨Or.inr rfl,
   ((C6_compile_failure_ends_in_fault_at_blob { Native.allSucceed with compilePS := false } 0
      [none, none] (Or.inr rfl)).2.2.2.2.2 (by decide) rfl).2,
   by decide⟩

/-- C10 (counterexample). A pass of the loop that takes a message off the
queue and dispatches it also renders: with a pending message 15 (`WM_PAINT`)
in the state `InitD3D` leaves, the pass issues a `Draw`. -/
theorem C10_counterexample :
    ¬ ∀ (m : MSG) (s : World), Initialized s →
      ∀ c ∈ issued (loopPass (some m)) s, c.kind ≠ .Draw ∧ c.kind ≠ .Present := by
  intro h
  have h1 := h ⟨15, 0⟩ (InitD3D Native.allSucceed 0 start) (by decide) (.Draw 2 3 0) (by decide)
  exact absurd h1.1 (by decide)

/-- C10 (amended). In an initialized state every pass of the main loop begins
with one `PeekMessage` with `PM_REMOVE`, which returns at once. When no
message was pending the pass renders one frame. When a message was taken off
the queue it is translated and dispatched, and then, unless it is `WM_QUIT`,
the same pass also renders one frame; `WM_QUIT` leaves the loop without
rendering. So `RenderFrame` runs at the end of every pass except the last. -/
theorem C10_every_pass_renders_unless_quit (s : World) (h : Initialized s) :
    ∃ dc sc, s.devcon = some dc ∧ s.swapchain = some sc ∧
      (loopBody none s).1 = false ∧
      issued (loopPass none) s = .PeekMessage PM_REMOVE none :: frameCalls dc sc s.pVBuffer ∧
      ∀ m : MSG,
        (m.message ≠ WM_QUIT →
          (loopBody (some m) s).1 = false ∧
          issued (loopPass (some m)) s =
            [.PeekMessage PM_REMOVE (some m), .TranslateMessage m, .DispatchMessage m] ++
              frameCalls dc sc s.pVBuffer) ∧
        (m.message = WM_QUIT →
          (loopBody (some m) s).1 = true ∧
          issued (loopPass (some m)) s =
            [.PeekMessage PM_REMOVE (some m), .TranslateMessage m, .DispatchMessage m]) := by
  obtain ⟨hf, hp⟩ := h
  obtain ⟨dc, hdc, hdcl⟩ := (alive_iff s _).mp (hp .devcon (by simp [globalPtrs]))
  obtain ⟨sc, hsc, hscl⟩ := (alive_iff s _).mp (hp .swapchain (by simp [globalPtrs]))
  simp only [World.get] at hdc hsc
  refine ⟨dc, sc, hdc, hsc, rfl, ?_, fun m => ⟨fun hq => ⟨?_, ?_⟩, fun hq => ⟨?_, ?_⟩⟩⟩
  · apply issued_of_trace
    have h1 : PeekMessage none s = { s with trace := s.trace ++ [.PeekMessage PM_REMOVE none] } := by
      simp [PeekMessage, stmt, emit, hf]
    simp only [loopPass, loopBody, h1]
    rw [RenderFrame_run { s with trace := s.trace ++ [.PeekMessage PM_REMOVE none] } dc sc
      hf hdc hdcl hsc hscl]
    simp [frameCalls]
  · simp [loopBody, hq]
  · apply issued_of_trace
    have h1 : seq [PeekMessage (some m), stmt (emit (.TranslateMessage m)),
        stmt (emit (.DispatchMessage m))] s =
        { s with
          trace := s.trace ++
            [.PeekMessage PM_REMOVE (some m), .TranslateMessage m, .DispatchMessage m]
          msg := some m } := by
      simp [seq, PeekMessage, stmt, emit, hf]
    simp only [loopPass, loopBody, h1, hq, if_false]
    rw [RenderFrame_run { s with
      trace := s.trace ++
        [.PeekMessage PM_REMOVE (some m), .TranslateMessage m, .DispatchMessage m]
      msg := some m } dc sc hf hdc hdcl hsc hscl]
    simp [frameCalls]
  · simp [loopBody, hq]
  · apply issued_of_trace
    simp [loopPass, loopBody, hq, seq, PeekMessage, stmt, emit, hf]

/-- C10 (witness). In the state `InitD3D` leaves when every call succeeds, a
pass with no pending message renders, a pass with a pending message other than
`WM_QUIT` dispatches it and renders, and a pass with `WM_QUIT` leaves the loop. -/
theorem C10_witness :
    Initialized (InitD3D Native.allSucceed 0 start) ∧
    ∃ dc sc, (InitD3D Native.allSucceed 0 start).devcon = some dc ∧
      (InitD3D Native.allSucceed 0 start).swapchain = some sc ∧
      (loopBody none (InitD3D Native.allSucceed 0 start)).1 = false ∧
      issued (loopPass none) (InitD3D Native.allSucceed 0 start) =
        .PeekMessage PM_REMOVE none ::
          frameCalls dc sc (InitD3D Native.allSucceed 0 start).pVBuffer ∧
      ∀ m : MSG,
        (m.message ≠ WM_QUIT →
          (loopBody (some m) (InitD3D Native.allSucceed 0 start)).1 = false ∧
          issued (loopPass (some m)) (InitD3D Native.allSucceed 0 start) =
            [.PeekMessage PM_REMOVE (some m), .TranslateMessage m, .DispatchMessage m] ++
              frameCalls dc sc (InitD3D Native.allSucceed 0 start).pVBuffer) ∧
        (m.message = WM_QUIT →
          (loopBody (some m) (InitD3D Native.allSucceed 0 start)).1 = true ∧
          issued (loopPass (some m)) (InitD3D Native.allSucceed 0 start) =
            [.PeekMessage PM_REMOVE (some m), .TranslateMessage m, .DispatchMessage m]) :=
  ⟨by decide, C10_every_pass_renders_unless_quit _ (by decide)⟩

theorem InitGraphics_needs_buffer (env : Native) (s : World) (hf : s.fault = none)
    (h : env.createBuffer = false ∨ env.map = false) :
    (InitGraphics env s).fault ≠ none := by
  have h1 : ∀ s1 : World, s1.fault = none →
      (env.map = false ∨ s1.pVBuffer = none) →
      (seq [devcon_Map env.map, callVia .ms_pData (fun dst _ => .memcpy dst vertices sizeofVertices),
        callVia .devcon (fun dc s => .Unmap dc s.pVBuffer)] s1).fault ≠ none := by
    intro s1 hf1 hm
    cases hdc : s1.devcon with
    | none => simp [seq, devcon_Map, callVia, stmt, deref, hf1, hdc]
    | some dc =>
      by_cases hl : dc ∈ s1.live ∨ Ptr.devcon ∈ s1.tolerated
      · rcases hm with hm | hm <;>
        simp [seq, devcon_Map, callVia, stmt, deref, emit, World.get, World.set, World.alive,
          hf1, hdc, hl, hm]
      · simp [seq, devcon_Map, callVia, stmt, deref, hf1, hdc, hl]
  have h0 : InitGraphics env s = seq [devcon_Map env.map,
      callVia .ms_pData (fun dst _ => .memcpy dst vertices sizeofVertices),
      callVia .devcon (fun dc s => .Unmap dc s.pVBuffer)]
      (createVia .dev (fun d _ => .CreateBuffer d bd) (fun _ => env.createBuffer) .pVBuffer s) :=
    rfl
  rw [h0]
  by_cases hf2 : (createVia .dev (fun d _ => .CreateBuffer d bd) (fun _ => env.createBuffer)
      .pVBuffer s).fault = none
  · apply h1 _ hf2
    rcases h with h | h
    · right
      revert hf2
      cases hd : s.dev with
      | none => simp [createVia, stmt, deref, World.get, hf, hd]
      | some d =>
        by_cases hl : d ∈ s.live ∨ Ptr.dev ∈ s.tolerated
        · simp [createVia, stmt, deref, created, emit, World.get, World.set, hf, hd, hl, h]
        · simp [createVia, stmt, deref, World.get, hf, hd, hl]
    · exact Or.inl h
  · have hst : Issues (argsOK 0) (seq [devcon_Map env.map,
        callVia .ms_pData (fun dst _ => .memcpy dst vertices sizeofVertices),
        callVia .devcon (fun dc s => .Unmap dc s.pVBuffer)]) [.Map, .memcpy, .Unmap] := by
      apply issues_step_cons (Step.mono (step_Map _)
        (by rintro _ ⟨dc, r, rfl⟩; simp [argsOK, Cmd.kind]))
      apply issues_step_cons (step_callVia _ _ (by intros; simp [argsOK, Cmd.kind]))
      apply issues_step_cons (step_callVia _ _ (by intros; simp [argsOK, Cmd.kind]))
      exact issues_nil _
    rw [hst.sticky _ hf2]
    exact hf2

/-- From program start, the first part of `InitD3D` ends without fault only
when device, swap chain and back buffer were obtained. -/
theorem prologue_no_fault (env : Native) (hWnd : Nat)
    (h : (seq (InitD3D_prologue env hWnd) start).fault = none) :
    env.createDeviceAndSwapChain = true ∧ env.getBuffer = true := by
  revert h
  cases h1 : env.createDeviceAndSwapChain <;> cases h2 : env.getBuffer <;>
    cases h3 : env.createRenderTargetView <;>
  simp [InitD3D_prologue, seq, stmt, deref, callVia, createVia, Release,
    D3D11CreateDeviceAndSwapChain, created, acquire, drop, emit, World.get, World.set,
    World.alive, start, h1, h2, h3]

/-- From program start `InitD3D` completes without fault only when every
native call succeeded whose result the later statements use: device and swap
chain, back buffer, both compiles, vertex buffer and map. -/
theorem InitD3D_no_fault (env : Native) (hWnd : Nat)
    (h : (InitD3D env hWnd start).fault = none) :
    env.createDeviceAndSwapChain = true ∧ env.getBuffer = true ∧
    env.compileVS = true ∧ env.compilePS = true ∧
    env.createBuffer = true ∧ env.map = true := by
  rw [InitD3D_split] at h
  have hp : (InitPipeline env (seq (InitD3D_prologue env hWnd) start)).fault = none := by
    by_contra hc
    rw [(issues_InitGraphics env hWnd).sticky _ hc] at h
    exact hc h
  have h0 : (seq (InitD3D_prologue env hWnd) start).fault = none := by
    by_contra hc
    rw [(issues_InitPipeline env hWnd).sticky _ hc] at hp
    exact hc hp
  obtain ⟨h1, h2⟩ := prologue_no_fault env hWnd h0
  obtain ⟨hd, hdl⟩ := prologue_from_start env hWnd h0
  have hvs : env.compileVS = true := by
    cases hv : env.compileVS with
    | true => rfl
    | false =>
      rw [InitPipeline_VShader_fails env _ h0 hv] at hp
      simp at hp
  have hps : env.compilePS = true := by
    cases hv : env.compilePS with
    | true => rfl
    | false =>
      rw [(InitPipeline_PShader_fails env _ 1 h0 hd hdl hvs hv).1] at hp
      simp at hp
  have hb : env.createBuffer = true ∧ env.map = true := by
    cases hcb : env.createBuffer with
    | false => exact absurd h (InitGraphics_needs_buffer env _ hp (Or.inl hcb))
    | true =>
      cases hm : env.map with
      | false => exact absurd h (InitGraphics_needs_buffer env _ hp (Or.inr hm))
      | true => exact ⟨rfl, rfl⟩
  exact ⟨h1, h2, hvs, hps, hb.1, hb.2⟩

theorem setUp_initTrace_append (hWnd : Nat) (a : List Cmd) :
    SetUp (initTrace hWnd ++ a) = true := by
  simp [SetUp, initTrace, List.any_append, bindsRenderTarget, setsViewport, bindsVertexShader,
    bindsPixelShader, bindsInputLayout, uploadsVertexBuffer]

end TinEngine
